import Mathlib

/-!
Shallow embedding of the WRO 2026 robot's perception / decision core
(`src/raspberry_pi`): sensor fusion, track map and state machine, with the
theorems checking the natural-language specification against the code.

Conventions of the embedding:
* Python floats become `ℚ` (the code only compares, adds, multiplies and
  divides them; the one square root is passed in as a rational approximation
  with explicit accuracy hypotheses).
* Python `int(x)` (truncation toward zero) is `ratTrunc`.
* A LIDAR scan (`dict[int, float]`) is an association list `List (Nat × ℚ)`.
* String enums ("red", "LEFT", "CW", ...) stay strings, as in the source.
-/

namespace WRO

/-- Color string "red". -/
def colorRed : String := "red"

/-- Color string "green". -/
def colorGreen : String := "green"

/-- Color string "magenta". -/
def colorMagenta : String := "magenta"

/-- Corner direction string "LEFT". -/
def dirLEFT : String := "LEFT"

/-- Corner direction string "RIGHT". -/
def dirRIGHT : String := "RIGHT"

/-- Track direction string "CW". -/
def dirCW : String := "CW"

/-- Track direction string "CCW". -/
def dirCCW : String := "CCW"

/-- Pillar side string "left". -/
def sideLeft : String := "left"

/-- Pillar side string "right". -/
def sideRight : String := "right"

/-- Cluster classification string "pillar". -/
def kindPillar : String := "pillar"

/-- Cluster classification string "wall". -/
def kindWall : String := "wall"

/-- Embeds `config.ANGLE_MATCH_THRESHOLD` (degrees). -/
def angleMatchThreshold : ℚ := 40

/-- Embeds `config.PILLAR_SIZE_MIN` (mm). -/
def pillarSizeMin : ℚ := 30

/-- Embeds `config.PILLAR_SIZE_MAX` (mm). -/
def pillarSizeMax : ℚ := 1000

/-- Python `int(x)`: truncation toward zero. -/
def ratTrunc (q : ℚ) : ℤ := if 0 ≤ q then ⌊q⌋ else -⌊-q⌋

/-- Embeds `sensors.camera.ColorBlob`. -/
structure ColorBlob where
  color : String
  angle : ℚ
  x : ℤ
  y : ℤ
  width : ℤ
  height : ℤ
  area : ℤ
deriving DecidableEq, Repr

/-- Embeds `perception.world_state.WallInfo`. -/
structure WallInfo where
  leftDistance : Option ℚ
  rightDistance : Option ℚ
  frontDistance : Option ℚ
deriving DecidableEq, Repr

/-- Embeds `WallInfo.corridor_width`: left + right when both present, else `None`. -/
def WallInfo.corridorWidth (w : WallInfo) : Option ℚ :=
  match w.leftDistance, w.rightDistance with
  | some l, some r => some (l + r)
  | _, _ => none

/-- Embeds `perception.world_state.Pillar`. -/
structure Pillar where
  color : String
  angle : ℚ
  distance : ℚ
deriving DecidableEq, Repr

/-- Embeds `Pillar.is_blocking` with the default 30° threshold. -/
def Pillar.isBlocking (p : Pillar) : Bool := |p.angle| < (30 : ℚ)

/-- Embeds `perception.world_state.WorldState`. -/
structure WorldState where
  timestamp : ℚ
  encoderPos : ℤ
  walls : WallInfo
  pillars : List Pillar
  cornerAhead : Option String
  parkingMarker : Option ℚ
deriving DecidableEq, Repr

/-- Embeds `WorldState.corridor_width`. -/
def WorldState.corridorWidth (w : WorldState) : Option ℚ := w.walls.corridorWidth

/-- Python `min(xs, key=lambda p: p.distance)`: first minimal element. -/
def minByDistance : List Pillar → Option Pillar
  | [] => none
  | p :: ps => some (ps.foldl (fun best q => if q.distance < best.distance then q else best) p)

/-- Embeds `WorldState.blocking_pillar`: nearest pillar with `|angle| < 30°`. -/
def WorldState.blockingPillar (w : WorldState) : Option Pillar :=
  minByDistance (w.pillars.filter (fun p => p.isBlocking))

/-- Embeds `WorldState.is_corner_approaching`. -/
def WorldState.isCornerApproaching (w : WorldState) : Bool := w.cornerAhead.isSome

/-- Embeds `WorldState.is_parking_visible`. -/
def WorldState.isParkingVisible (w : WorldState) : Bool := w.parkingMarker.isSome

/-! ## LIDAR scan helpers -/

/-- A LIDAR scan: Python `dict[int, float]` mapping degree to millimetres. -/
abbrev Scan := List (Nat × ℚ)

/-- Python `angle in scan` / `scan[angle]` on the dict. -/
def scanLookup (scan : Scan) (a : Nat) : Option ℚ := scan.lookup a

/-- Embeds `_average_distance(scan, center, window)` shared by wall detection,
corner detection and sensor fusion: mean of the readings present in the
`center ± window` degree band (mod 360), `None` if the band is empty. -/
def averageDistance (scan : Scan) (center : ℤ) (window : ℕ) : Option ℚ :=
  let distances := (List.range (2 * window + 1)).filterMap
    (fun k => scanLookup scan (((center + ((k : ℤ) - (window : ℤ))) % 360).toNat))
  if distances = [] then none
  else some (distances.sum / distances.length)

/-- Embeds `strategies.wall_detection.AverageWallDetection.detect_walls` with the
default angles and windows (left 270°±10, right 90°±10, front 0°±5). -/
def detectWalls (scan : Scan) : WallInfo :=
  { leftDistance := averageDistance scan 270 10
    rightDistance := averageDistance scan 90 10
    frontDistance := averageDistance scan 0 5 }

/-- Embeds `strategies.corner.LidarCornerDetection.detect` with the default
threshold 400 mm, front window 5, side window 15. -/
def cornerDetect (scan : Scan) : Option String :=
  match averageDistance scan 0 5 with
  | none => none
  | some front =>
    if front > 400 then none
    else
      match averageDistance scan 270 15, averageDistance scan 90 15 with
      | none, none => none
      | none, some _ => some dirRIGHT
      | some _, none => some dirLEFT
      | some l, some r => if l > r then some dirLEFT else some dirRIGHT

/-! ## Clustering -/

/-- Embeds `strategies.clustering.DetectedObject`. -/
structure DetectedObject where
  angle : ℚ
  distance : ℚ
  width : ℚ
  objType : String
deriving DecidableEq, Repr

/-- Embeds `strategies.clustering.OpenCVClustering.find_objects`: the empty-scan
guard is taken from the source; the cv2 rasterise/dilate/contour pipeline on
a non-empty scan is image processing and is kept opaque as a parameter. -/
def findObjectsOpenCV (pipeline : Scan → List DetectedObject) (scan : Scan) :
    List DetectedObject :=
  if scan = [] then [] else pipeline scan

/-! ## Sensor fusion: pillar matching -/

/-- LIDAR angle to camera reference frame: angles above 180° become
negative signed degrees (`sensor_fusion.py` lines 147-151). -/
def camAngle (lidarAngle : ℚ) : ℚ :=
  if lidarAngle > 180 then lidarAngle - 360 else lidarAngle

/-- Width gate of `_match_pillars` (line 141): `PILLAR_SIZE_MIN ≤ width ≤
PILLAR_SIZE_MAX`. -/
def widthOk (o : DetectedObject) : Bool :=
  pillarSizeMin ≤ o.width ∧ o.width ≤ pillarSizeMax

/-- Inner loop of `_match_pillars`: scan the enumerated object list for the
unconsumed, width-eligible object minimising `|blob.angle - camAngle|`,
subject to that difference being below `angleMatchThreshold`.  `best`
carries `(index, object, angle_diff)`. -/
def bestMatchAux (blobAngle : ℚ) (used : List ℕ) :
    List (ℕ × DetectedObject) → Option (ℕ × DetectedObject × ℚ) →
    Option (ℕ × DetectedObject × ℚ)
  | [], best => best
  | (i, o) :: rest, best =>
    if i ∈ used then bestMatchAux blobAngle used rest best
    else if widthOk o then
      let diff := |blobAngle - camAngle o.angle|
      if diff < angleMatchThreshold ∧
          (match best with
           | none => true
           | some (_, _, bd) => decide (diff < bd)) = true then
        bestMatchAux blobAngle used rest (some (i, o, diff))
      else bestMatchAux blobAngle used rest best
    else bestMatchAux blobAngle used rest best

/-- Outer loop of `_match_pillars` over the (already filtered) blob list,
threading the consumed-index set. -/
def matchPillarsAux (objects : List (ℕ × DetectedObject)) :
    List ColorBlob → List ℕ → List Pillar
  | [], _ => []
  | b :: rest, used =>
    match bestMatchAux b.angle used objects none with
    | none => matchPillarsAux objects rest used
    | some (i, o, _) =>
      ⟨b.color, b.angle, o.distance⟩ :: matchPillarsAux objects rest (i :: used)

/-- Embeds `SensorFusion._match_pillars`. -/
def matchPillars (objects : List DetectedObject) (blobs : List ColorBlob) :
    List Pillar :=
  matchPillarsAux objects.enum
    (blobs.filter (fun b => b.color = colorRed ∨ b.color = colorGreen)) []

/-! ## Sensor fusion: parking detection -/

/-- Python `max(magenta, key=lambda b: b.area)`: first maximal element of the
magenta blobs, `none` when there are none. -/
def largestMagenta (blobs : List ColorBlob) : Option ColorBlob :=
  match blobs.filter (fun b => b.color = colorMagenta) with
  | [] => none
  | b :: bs => some (bs.foldl (fun best q => if q.area > best.area then q else best) b)

/-- Projected LIDAR angle of the largest magenta blob
(`sensor_fusion.py` lines 186-188). -/
def parkingLidarAngle (largest : ColorBlob) : ℤ :=
  if largest.angle < 0 then ratTrunc (360 + largest.angle) % 360
  else ratTrunc largest.angle % 360

/-- Embeds `SensorFusion._detect_parking`: `distance if distance else 1000.0` means
both a missing mean and a 0.0 mean fall back to 1000.0. -/
def detectParking (blobs : List ColorBlob) (scan : Scan) : Option ℚ :=
  match largestMagenta blobs with
  | none => none
  | some largest =>
    match averageDistance scan (parkingLidarAngle largest) 5 with
    | none => some 1000
    | some d => if d = 0 then some 1000 else some d

/-- Embeds `SensorFusion.update` with the default strategies (average wall
detection, LIDAR corner detection, OpenCV clustering with its pipeline
parameter); timestamp and encoder are inputs of the embedding. -/
def fusionUpdate (pipeline : Scan → List DetectedObject) (scan : Scan)
    (blobs : List ColorBlob) (encoder : ℤ) (timestamp : ℚ) : WorldState :=
  { timestamp := timestamp
    encoderPos := encoder
    walls := detectWalls scan
    pillars := matchPillars (findObjectsOpenCV pipeline scan) blobs
    cornerAhead := cornerDetect scan
    parkingMarker := detectParking blobs scan }

/-! ## Track map (`perception/track_map.py`) -/

/-- Embeds `track_map.Corner`. -/
structure Corner where
  encoderPos : ℤ
  direction : String
deriving DecidableEq, Repr

/-- Embeds `track_map.Section`. -/
structure Section where
  startEncoder : ℤ
  endEncoder : ℤ
  width : ℚ
deriving DecidableEq, Repr

/-- Embeds `track_map.PillarRecord`. -/
structure PillarRecord where
  encoderPos : ℤ
  color : String
  side : String
  angle : ℚ
deriving DecidableEq, Repr

/-- Embeds `track_map.TrackMap`: public track data plus private mapping state. -/
structure TrackMap where
  cornerTolerance : ℤ
  pillarTolerance : ℤ
  direction : Option String
  corners : List Corner
  sections : List Section
  pillars : List PillarRecord
  parkingZone : Option (ℤ × ℤ)
  lapLength : Option ℤ
  firstLap : Bool
  lapStart : Option ℤ
  lastCornerEnc : ℤ
  sectionWidths : List ℚ
  sectionStart : Option ℤ
deriving DecidableEq, Repr

/-- Embeds `TrackMap.__init__` with the default tolerances (100, 50). -/
def TrackMap.init : TrackMap :=
  { cornerTolerance := 100
    pillarTolerance := 50
    direction := none
    corners := []
    sections := []
    pillars := []
    parkingZone := none
    lapLength := none
    firstLap := true
    lapStart := none
    lastCornerEnc := -1000
    sectionWidths := []
    sectionStart := none }

/-- Embeds `TrackMap.corner_count`. -/
def TrackMap.cornerCount (t : TrackMap) : ℕ := t.corners.length

/-- Embeds `TrackMap._finalize_section`. -/
def TrackMap.finalizeSection (t : TrackMap) (endEncoder : ℤ) : TrackMap :=
  match t.sectionStart with
  | none => t
  | some s =>
    if t.sectionWidths = [] then t
    else
      { t with sections := t.sections ++
          [Section.mk s endEncoder
            (t.sectionWidths.sum / (t.sectionWidths.length : ℚ))] }

/-- Embeds `TrackMap._update_corners`: drop candidates within `corner_tolerance`
of the last recorded corner, else append and start a new section. -/
def TrackMap.updateCorners (t : TrackMap) (w : WorldState) : TrackMap :=
  match w.cornerAhead with
  | none => t
  | some dir =>
    if |w.encoderPos - t.lastCornerEnc| < t.cornerTolerance then t
    else
      let t := { t with corners := t.corners ++ [Corner.mk w.encoderPos dir],
                        lastCornerEnc := w.encoderPos }
      let t := t.finalizeSection w.encoderPos
      { t with sectionStart := some w.encoderPos, sectionWidths := [] }

/-- Embeds `TrackMap._update_sections`: buffer the corridor width sample. -/
def TrackMap.updateSections (t : TrackMap) (w : WorldState) : TrackMap :=
  match w.corridorWidth with
  | none => t
  | some c => { t with sectionWidths := t.sectionWidths ++ [c] }

/-- Embeds `TrackMap._is_new_pillar`. -/
def TrackMap.isNewPillar (t : TrackMap) (encoder : ℤ) (color : String) : Bool :=
  t.pillars.all (fun p =>
    ¬(p.color = color ∧ |p.encoderPos - encoder| < t.pillarTolerance))

/-- Body of the `_update_pillars` loop for one world pillar. -/
def TrackMap.pillarStep (encoder : ℤ) (t : TrackMap) (p : Pillar) : TrackMap :=
  if t.isNewPillar encoder p.color then
    let s : String := if p.angle > 0 then sideRight else sideLeft
    let r : PillarRecord :=
      { encoderPos := encoder, color := p.color, side := s, angle := p.angle }
    { t with pillars := t.pillars ++ [r] }
  else t

/-- Embeds `TrackMap._update_pillars`. -/
def TrackMap.updatePillars (t : TrackMap) (w : WorldState) : TrackMap :=
  w.pillars.foldl (TrackMap.pillarStep w.encoderPos) t

/-- Embeds `TrackMap._update_parking`. -/
def TrackMap.updateParking (t : TrackMap) (w : WorldState) : TrackMap :=
  if w.parkingMarker.isSome ∧ t.parkingZone = none then
    { t with parkingZone := some (w.encoderPos - 100, w.encoderPos + 300) }
  else t

/-- Embeds `TrackMap._finalize_lap`. -/
def TrackMap.finalizeLap (t : TrackMap) (encoder : ℤ) : TrackMap :=
  match t.lapStart with
  | none => t
  | some s => { t with lapLength := some (encoder - s), firstLap := false }

/-- Embeds `TrackMap.update` lines 100-103: latch `lap_start` / `section_start` on
the first frame. -/
def TrackMap.initStep (t : TrackMap) (encoder : ℤ) : TrackMap :=
  if t.lapStart = none then
    { t with lapStart := some encoder, sectionStart := some encoder }
  else t

/-- Embeds `TrackMap.update` lines 106-108: latch the track direction from the
first observed corner. -/
def TrackMap.directionStep (t : TrackMap) (w : WorldState) : TrackMap :=
  if t.direction = none ∧ w.cornerAhead.isSome then
    let d := if w.cornerAhead = some dirRIGHT then dirCW else dirCCW
    { t with direction := some d }
  else t

/-- Embeds `TrackMap.update` lines 122-124: finalize the lap once four corners are
recorded and the lap length is still unset. -/
def TrackMap.finalizeStep (t : TrackMap) (encoder : ℤ) : TrackMap :=
  if 4 ≤ t.corners.length ∧ t.lapLength = none then t.finalizeLap encoder
  else t

/-- The body of `TrackMap.update` before the lap-completion check. -/
def TrackMap.updateBody (t : TrackMap) (w : WorldState) : TrackMap :=
  (((((t.initStep w.encoderPos).directionStep w).updateCorners
      w).updateSections w).updatePillars w).updateParking w

/-- Embeds `TrackMap.update`: per-frame mapping during the first lap; a no-op
afterwards. -/
def TrackMap.update (t : TrackMap) (w : WorldState) : TrackMap :=
  if t.firstLap = false then t
  else (t.updateBody w).finalizeStep w.encoderPos

/-- Fold `TrackMap.update` over a list of world states. -/
def TrackMap.run (t : TrackMap) (ws : List WorldState) : TrackMap :=
  ws.foldl TrackMap.update t

/-- Embeds `TrackMap.get_next_corner`. -/
def TrackMap.getNextCorner (t : TrackMap) (encoder : ℤ) :
    Option (ℤ × String) :=
  if t.corners = [] then none
  else
    match t.lapLength with
    | none =>
      (t.corners.find? (fun c => c.encoderPos > encoder)).map
        (fun c => (c.encoderPos - encoder, c.direction))
    | some lapLen =>
      let normalized := encoder % lapLen
      match t.corners.find? (fun c => c.encoderPos % lapLen > normalized) with
      | some c => some (c.encoderPos % lapLen - normalized, c.direction)
      | none =>
        match t.corners with
        | [] => none
        | first :: _ =>
          some ((lapLen - normalized) + first.encoderPos % lapLen, first.direction)

/-- Embeds `TrackMap.get_expected_pillars`. -/
def TrackMap.getExpectedPillars (t : TrackMap) (encoder : ℤ)
    (lookahead : ℤ := 500) : List PillarRecord :=
  match t.lapLength with
  | none =>
    t.pillars.filter (fun p =>
      0 ≤ p.encoderPos - encoder ∧ p.encoderPos - encoder ≤ lookahead)
  | some lapLen =>
    let normalized := encoder % lapLen
    t.pillars.filter (fun p =>
      let pNorm := p.encoderPos % lapLen
      let dist := if pNorm ≥ normalized then pNorm - normalized
                  else (lapLen - normalized) + pNorm
      0 ≤ dist ∧ dist ≤ lookahead)

/-- Embeds `TrackMap.get_section_width`. -/
def TrackMap.getSectionWidth (t : TrackMap) (encoder : ℤ) : Option ℚ :=
  match t.lapLength with
  | none =>
    (t.sections.find? (fun s =>
      s.startEncoder ≤ encoder ∧ encoder ≤ s.endEncoder)).map (·.width)
  | some lapLen =>
    let normalized := encoder % lapLen
    (t.sections.find? (fun s =>
      s.startEncoder % lapLen ≤ normalized ∧
      normalized ≤ s.endEncoder % lapLen)).map (·.width)

/-- Embeds `TrackMap.get_distance_to_parking`. -/
def TrackMap.getDistanceToParking (t : TrackMap) (encoder : ℤ) : Option ℤ :=
  match t.parkingZone with
  | none => none
  | some (start, _) =>
    match t.lapLength with
    | none =>
      if start - encoder > 0 then some (start - encoder) else none
    | some lapLen =>
      let normalized := encoder % lapLen
      let startNorm := start % lapLen
      if startNorm ≥ normalized then some (startNorm - normalized)
      else some ((lapLen - normalized) + startNorm)

/-- Embeds `TrackMap.should_prepare_parking`. -/
def TrackMap.shouldPrepareParking (t : TrackMap) (encoder : ℤ)
    (lapCount : ℕ) (distance : ℤ := 500) : Bool :=
  if lapCount < 3 then false
  else
    match t.getDistanceToParking encoder with
    | none => false
    | some d => d ≤ distance

/-! ## State machine (`decision/state_machine.py`) -/

/-- Embeds `decision.state_machine.RobotState`. -/
inductive RobotState where
  | IDLE
  | WALL_FOLLOW
  | AVOID_PILLAR
  | CORNER
  | PARKING
  | DONE
deriving DecidableEq, Repr

/-- Embeds `StateMachine._min_avoid_frames` (25, never reassigned). -/
def minAvoidFrames : ℕ := 25

/-- Embeds `StateMachine._clear_angle` (65°, never reassigned). -/
def clearAngle : ℚ := 65

/-- Embeds `StateMachine._clear_distance` (600 mm, never reassigned). -/
def clearDistance : ℚ := 600

/-- Embeds `decision.state_machine.StateMachine`: the fields the transition logic
reads or writes.  `hasParking` models `self.parking is not None` (the
default construction passes no parking strategy, so `false`). -/
structure StateMachine where
  state : RobotState
  lapCount : ℕ
  targetLaps : ℕ
  direction : Option String
  avoidingPillar : Option String
  avoidPhase : ℕ
  avoidFrames : ℕ
  hasParking : Bool
deriving DecidableEq, Repr

/-- Embeds `StateMachine.__init__` with no parking strategy. -/
def StateMachine.init : StateMachine :=
  { state := RobotState.IDLE
    lapCount := 0
    targetLaps := 3
    direction := none
    avoidingPillar := none
    avoidPhase := 0
    avoidFrames := 0
    hasParking := false }

/-- Embeds `StateMachine.start`. -/
def StateMachine.start (sm : StateMachine) : StateMachine :=
  { sm with state := RobotState.WALL_FOLLOW, lapCount := 0, avoidingPillar := none }

/-- Embeds `StateMachine._is_pillar_cleared`: first same-color pillar; cleared when
invisible for more than `2 * minAvoidFrames` frames, or far, or well to the
side. -/
def StateMachine.isPillarCleared (sm : StateMachine) (w : WorldState) : Bool :=
  match w.pillars.find? (fun p => some p.color = sm.avoidingPillar) with
  | none => decide (sm.avoidFrames > minAvoidFrames * 2)
  | some p => decide (p.distance > clearDistance) || decide (|p.angle| > clearAngle)

/-- Embeds `StateMachine._check_transitions`, threading the per-tick
`parkingComplete` flag for `self.parking.is_complete()`. -/
def StateMachine.checkTransitions (sm : StateMachine) (w : WorldState)
    (t : TrackMap) (parkingComplete : Bool) : StateMachine :=
  match sm.state with
  | RobotState.WALL_FOLLOW =>
    match w.blockingPillar with
    | some p =>
      { sm with state := RobotState.AVOID_PILLAR, avoidingPillar := some p.color,
                avoidPhase := 0, avoidFrames := 0 }
    | none =>
      if w.isCornerApproaching then { sm with state := RobotState.CORNER }
      else if 3 ≤ sm.lapCount ∧ w.isParkingVisible then
        { sm with state := RobotState.PARKING }
      else sm
  | RobotState.AVOID_PILLAR =>
    let sm := { sm with avoidFrames := sm.avoidFrames + 1 }
    if sm.avoidFrames < minAvoidFrames then sm
    else if sm.isPillarCleared w then
      { sm with state := RobotState.WALL_FOLLOW, avoidingPillar := none }
    else sm
  | RobotState.CORNER =>
    match w.blockingPillar with
    | some p =>
      { sm with state := RobotState.AVOID_PILLAR, avoidingPillar := some p.color,
                avoidPhase := 0, avoidFrames := 0 }
    | none =>
      if w.isCornerApproaching then sm
      else
        let sm := { sm with state := RobotState.WALL_FOLLOW }
        if 0 < t.cornerCount ∧ t.cornerCount % 4 = 0 then
          let sm := { sm with lapCount := t.cornerCount / 4 }
          if sm.targetLaps ≤ sm.lapCount then { sm with state := RobotState.DONE }
          else sm
        else sm
  | RobotState.PARKING =>
    if sm.hasParking ∧ parkingComplete then { sm with state := RobotState.DONE }
    else sm
  | _ => sm

/-- Embeds `StateMachine._find_avoiding_pillar`: closest pillar of the latched
color. -/
def StateMachine.findAvoidingPillar (sm : StateMachine) (w : WorldState) :
    Option Pillar :=
  minByDistance (w.pillars.filter (fun p => some p.color = sm.avoidingPillar))

/-- Embeds `StateMachine._update_avoid_phase`. -/
def StateMachine.updateAvoidPhase (sm : StateMachine) (p : Pillar) : StateMachine :=
  if p.distance < 300 then { sm with avoidPhase := 1 }
  else if sm.avoidPhase = 1 ∧ p.distance > 400 then { sm with avoidPhase := 2 }
  else sm

/-- Embeds `StateMachine.decide` lines 127-128: latch the direction from the track
map (Python truthiness: a non-empty string). -/
def StateMachine.latchDirection (sm : StateMachine) (t : TrackMap) : StateMachine :=
  match t.direction with
  | none => sm
  | some d =>
    if sm.direction = none ∧ d ≠ "" then { sm with direction := some d }
    else sm

/-- The `AVOID_PILLAR` execution branch of `decide` updates the avoidance
phase when the latched pillar is visible. -/
def StateMachine.phasePostlude (sm : StateMachine) (w : WorldState) : StateMachine :=
  if sm.state = RobotState.AVOID_PILLAR then
    match sm.findAvoidingPillar w with
    | none => sm
    | some p => sm.updateAvoidPhase p
  else sm

/-- The state mutation performed by one `StateMachine.decide` call: `IDLE`
and `DONE` return before `_check_transitions`; otherwise the direction is
latched from the track map, transitions run, and the `AVOID_PILLAR` branch
updates the avoidance phase. -/
def StateMachine.decideStep (sm : StateMachine) (w : WorldState)
    (t : TrackMap) (parkingComplete : Bool) : StateMachine :=
  if sm.state = RobotState.IDLE ∨ sm.state = RobotState.DONE then sm
  else (((sm.latchDirection t).checkTransitions w t parkingComplete).phasePostlude w)

/-- One tick of the main control loop (`main.py` lines 184-193): fusion
produced `w`, then `track_map.update(w)`, then `state_machine.decide(w,
track_map)` on the updated map. -/
def systemStep (s : TrackMap × StateMachine) (inp : WorldState × Bool) :
    TrackMap × StateMachine :=
  let t := s.1.update inp.1
  (t, s.2.decideStep inp.1 t inp.2)

/-- A run of the control loop from race start: fresh `TrackMap`, started
`StateMachine`. -/
def systemRun (steps : List (WorldState × Bool)) : TrackMap × StateMachine :=
  steps.foldl systemStep (TrackMap.init, StateMachine.init.start)

/-! ## Proportional avoidance (`strategies/avoidance.py`) -/

/-- Embeds `ProportionalAvoidance.__init__` defaults. -/
structure AvoidParams where
  slowSpeed : ℤ
  steeringCenter : ℤ
  maxSteerOffset : ℤ
  minSteerOffset : ℤ
  maxDistance : ℚ
  angleGain : ℚ
  steeringMin : ℤ
  steeringMax : ℤ
deriving DecidableEq, Repr

/-- Default construction `ProportionalAvoidance()`. -/
def AvoidParams.default : AvoidParams :=
  { slowSpeed := 35
    steeringCenter := 90
    maxSteerOffset := 80
    minSteerOffset := 45
    maxDistance := 800
    angleGain := 4/5
    steeringMin := 10
    steeringMax := 170 }

/-- Embeds `linear = 1.0 - min(pillar.distance / max_distance, 1.0)`. -/
def avoidLinear (prm : AvoidParams) (distance : ℚ) : ℚ :=
  1 - min (distance / prm.maxDistance) 1

/-- Embeds `ProportionalAvoidance.compute`.  `u` stands for the floating-point
square root `linear ** 0.5`; the theorems pass it in together with rational
accuracy bounds.  Returns `(speed, steering)`. -/
def avoidCompute (prm : AvoidParams) (p : Pillar) (u : ℚ) : ℤ × ℤ :=
  let direction : ℤ := if p.color = colorRed then -1 else 1
  let baseOffset : ℚ :=
    (prm.minSteerOffset : ℚ) + u * ((prm.maxSteerOffset : ℚ) - (prm.minSteerOffset : ℚ))
  let angleCorrection : ℚ := (direction : ℚ) * p.angle * prm.angleGain
  let offset : ℤ := ratTrunc (baseOffset + angleCorrection)
  let offset : ℤ := max prm.minSteerOffset (min prm.maxSteerOffset offset)
  let steering : ℤ := prm.steeringCenter + direction * offset
  let steering : ℤ := max prm.steeringMin (min prm.steeringMax steering)
  (prm.slowSpeed, steering)

/-! ## Concrete fixtures and invariant definitions used by the theorems -/

/-- A LIDAR cluster the classifier calls a wall (width 500 ≥ 120) whose
width nevertheless passes the fusion gate `30 ≤ width ≤ 1000`. -/
def wallObjX : DetectedObject :=
  { angle := 10, distance := 500, width := 500, objType := kindWall }

/-- A pillar-classified cluster straight ahead. -/
def pObjX : DetectedObject :=
  { angle := 0, distance := 500, width := 50, objType := kindPillar }

/-- A red camera blob at +12°. -/
def redBlob12 : ColorBlob :=
  { color := colorRed, angle := 12, x := 0, y := 0, width := 0, height := 0, area := 0 }

/-- A red blob at +35° (35° from the cluster of `pObjX`). -/
def b1X : ColorBlob :=
  { color := colorRed, angle := 35, x := 0, y := 0, width := 0, height := 0, area := 0 }

/-- A green blob at +10° (10° from the cluster of `pObjX`). -/
def b2X : ColorBlob :=
  { color := colorGreen, angle := 10, x := 0, y := 0, width := 0, height := 0, area := 0 }

/-- A magenta blob at −12°. -/
def mBlobX : ColorBlob :=
  { color := colorMagenta, angle := -12, x := 0, y := 0, width := 0, height := 0, area := 100 }

/-- All-absent wall info. -/
def blankWallInfo : WallInfo := { leftDistance := none, rightDistance := none, frontDistance := none }

/-- A world with nothing in it. -/
def blankWorld : WorldState :=
  { timestamp := 0, encoderPos := 0, walls := blankWallInfo, pillars := [],
    cornerAhead := none, parkingMarker := none }

/-- A world whose corridor width measures 500 mm. -/
def w500 : WorldState :=
  { timestamp := 0, encoderPos := 0,
    walls := { leftDistance := some 200, rightDistance := some 300, frontDistance := none },
    pillars := [], cornerAhead := none, parkingMarker := none }

/-- A world whose corridor width measures 800 mm. -/
def w800 : WorldState :=
  { timestamp := 0, encoderPos := 10,
    walls := { leftDistance := some 400, rightDistance := some 400, frontDistance := none },
    pillars := [], cornerAhead := none, parkingMarker := none }

/-- A world announcing a right corner at encoder 500. -/
def wCornerX : WorldState :=
  { timestamp := 0, encoderPos := 500, walls := blankWallInfo, pillars := [],
    cornerAhead := some dirRIGHT, parkingMarker := none }

/-- A track map already frozen after its first lap. -/
def frozenMap : TrackMap := { TrackMap.init with firstLap := false }

/-- A state machine that just entered `AVOID_PILLAR` on a red pillar. -/
def avoidEntry : StateMachine :=
  { StateMachine.init with
      state := RobotState.AVOID_PILLAR
      avoidingPillar := some colorRed }

/-- The red pillar of spec scenario 4: +12°, 500 mm. -/
def redPillar500 : Pillar := { color := colorRed, angle := 12, distance := 500 }

/-- A world showing the avoided red pillar 700 mm away — far enough that
the clearance predicate would exit `AVOID_PILLAR` if it were evaluated. -/
def wRedFar : WorldState :=
  { timestamp := 0, encoderPos := 0, walls := blankWallInfo,
    pillars := [{ color := colorRed, angle := 0, distance := 700 }],
    cornerAhead := none, parkingMarker := none }

/-- One decide tick for a state machine fed externally chosen worlds and
maps (used to state the `AVOID_PILLAR` hysteresis property). -/
def smTick (sm : StateMachine) (x : WorldState × TrackMap × Bool) : StateMachine :=
  sm.decideStep x.1 x.2.1 x.2.2

/-- Track-map invariant behind the corner-count bound: at most four corners
ever; while the first lap is still open there are at most three and the lap
length is unset. -/
def TrackInv (t : TrackMap) : Prop :=
  t.corners.length ≤ 4 ∧ (t.firstLap = true → t.corners.length ≤ 3 ∧ t.lapLength = none)

/-- State-machine invariant: the lap counter never exceeds one, the target
stays three, and neither `PARKING` nor `DONE` is ever reached. -/
def SMInv (sm : StateMachine) : Prop :=
  sm.lapCount ≤ 1 ∧ sm.targetLaps = 3 ∧
  sm.state ≠ RobotState.PARKING ∧ sm.state ≠ RobotState.DONE

/-- Corner-spacing invariant: consecutive recorded corners are at least
`corner_tolerance` apart, and `_last_corner_enc` is the last corner's
encoder value. -/
def CornerInv (t : TrackMap) : Prop :=
  List.Chain' (fun a b => t.cornerTolerance ≤ |b.encoderPos - a.encoderPos|) t.corners ∧
  ∀ c ∈ t.corners.getLast?, c.encoderPos = t.lastCornerEnc

/-- A duplicate pillar record exists for the given encoder/color. -/
def PillarDup (tol : ℤ) (recs : List PillarRecord) (encoder : ℤ) (color : String) : Prop :=
  ∃ r ∈ recs, r.color = color ∧ |r.encoderPos - encoder| < tol

/-! # Theorems -/

theorem TrackMap.update_not_firstLap (t : TrackMap) (w : WorldState)
    (h : t.firstLap = false) : t.update w = t := by
  simp [TrackMap.update, h]

/-- C6: once `first_lap_complete` is set (`_first_lap = false`), every
subsequent `TrackMap.update` call is a no-op, leaving every field of the map
unchanged.  The query methods (`get_next_corner`, `get_expected_pillars`,
`get_section_width`, `get_distance_to_parking`, `should_prepare_parking`)
perform no assignment in the source and are embedded as pure functions of
the map, so they cannot modify it. -/
theorem C6_frozen_update_noop (t : TrackMap) (w : WorldState)
    (h : t.firstLap = false) : t.update w = t :=
  TrackMap.update_not_firstLap t w h

theorem C6_frozen_update_noop_witness :
    frozenMap.firstLap = false ∧ frozenMap.update w500 = frozenMap :=
  ⟨rfl, C6_frozen_update_noop frozenMap w500 rfl⟩

theorem averageDistance_nil (c : ℤ) (win : ℕ) : averageDistance [] c win = none := by
  simp [averageDistance, scanLookup]

theorem matchPillarsAux_nil_objects (bs : List ColorBlob) :
    ∀ used, matchPillarsAux [] bs used = [] := by
  induction bs with
  | nil => intro used; rfl
  | cons b rest ih => intro used; simp [matchPillarsAux, bestMatchAux, ih]

theorem matchPillars_nil_objects (blobs : List ColorBlob) :
    matchPillars [] blobs = [] := by
  simp [matchPillars, matchPillarsAux_nil_objects]

/-- C9: on the empty LIDAR scan, for any blob list, `SensorFusion.update`
(a total function of its inputs, so it cannot throw) produces a
`WorldState` whose wall distances are all absent, whose pillar list is
empty and whose `corner_ahead` is `None`. -/
theorem C9_empty_scan (pipeline : Scan → List DetectedObject)
    (blobs : List ColorBlob) (enc : ℤ) (ts : ℚ) :
    (fusionUpdate pipeline [] blobs enc ts).walls = blankWallInfo ∧
    (fusionUpdate pipeline [] blobs enc ts).pillars = [] ∧
    (fusionUpdate pipeline [] blobs enc ts).cornerAhead = none := by
  refine ⟨?_, ?_, ?_⟩ <;>
    simp [fusionUpdate, detectWalls, cornerDetect, findObjectsOpenCV,
      blankWallInfo, averageDistance_nil, matchPillars_nil_objects]

theorem largestMagenta_isSome (blobs : List ColorBlob)
    (h : ∃ b ∈ blobs, b.color = colorMagenta) :
    ∃ l, largestMagenta blobs = some l := by
  unfold largestMagenta
  cases hf : blobs.filter (fun b => b.color = colorMagenta) with
  | nil =>
    obtain ⟨b, hb, hc⟩ := h
    have : b ∈ blobs.filter (fun b => b.color = colorMagenta) :=
      List.mem_filter.mpr ⟨hb, by simp [hc]⟩
    simp [hf] at this
  | cons x xs => exact ⟨_, rfl⟩

/-- C10: whenever at least one magenta blob is present, parking detection
returns a marker distance (never `None`); and whenever the mean LIDAR
distance in the ±5° window around the largest magenta blob's projected
angle is unavailable or equals 0.0 (both falsy in the source's
`distance if distance else 1000.0`), that distance is exactly 1000.0. -/
theorem C10_parking_fallback (blobs : List ColorBlob) (scan : Scan)
    (h : ∃ b ∈ blobs, b.color = colorMagenta) :
    (detectParking blobs scan).isSome = true ∧
    ∀ l, largestMagenta blobs = some l →
      (averageDistance scan (parkingLidarAngle l) 5 = none ∨
       averageDistance scan (parkingLidarAngle l) 5 = some 0) →
      detectParking blobs scan = some 1000 := by
  obtain ⟨l, hl⟩ := largestMagenta_isSome blobs h
  constructor
  · unfold detectParking
    rw [hl]
    cases havg : averageDistance scan (parkingLidarAngle l) 5 with
    | none => simp [havg]
    | some d => by_cases hd : d = 0 <;> simp [havg, hd]
  · intro l' hl' hd
    unfold detectParking
    rw [hl']
    rcases hd with hd | hd <;> simp [hd]

theorem C10_parking_fallback_witness :
    (∃ b ∈ [mBlobX], b.color = colorMagenta) ∧
    (detectParking [mBlobX] []).isSome = true ∧
    detectParking [mBlobX] [] = some 1000 := by
  have h : ∃ b ∈ [mBlobX], b.color = colorMagenta := by decide
  have hmain := C10_parking_fallback [mBlobX] [] h
  exact ⟨h, hmain.1, hmain.2 mBlobX (by decide) (Or.inl (by decide))⟩

theorem ratTrunc_eq_of_bounds (q : ℚ) (n : ℤ) (h0 : 0 ≤ n) (h1 : (n : ℚ) ≤ q)
    (h2 : q < (n : ℚ) + 1) : ratTrunc q = n := by
  have hq : 0 ≤ q := le_trans (by exact_mod_cast h0) h1
  rw [ratTrunc, if_pos hq]
  rw [Int.floor_eq_iff]
  exact ⟨h1, h2⟩

/-- C8: for a red pillar at +12°, 500 mm, `ProportionalAvoidance.compute`
with default parameters outputs exactly `(35, 34)`.  Here `u` is the value
the source computes as `linear ** 0.5` with `linear = 1 − 500/800 = 3/8`;
the hypotheses say `u` is a nonnegative value within 1/1000 of `sqrt(3/8)`,
which covers any faithful floating-point square root. -/
theorem C8_avoid_red_500 (u : ℚ) (hu : 0 ≤ u)
    (hlo : (u - 1/1000) ^ 2 < avoidLinear AvoidParams.default 500)
    (hhi : avoidLinear AvoidParams.default 500 < (u + 1/1000) ^ 2) :
    avoidCompute AvoidParams.default redPillar500 u = (35, 34) := by
  have hl : avoidLinear AvoidParams.default 500 = 3/8 := by
    norm_num [avoidLinear, AvoidParams.default]
  rw [hl] at hlo hhi
  have h1 : (6113 : ℚ)/10000 < u := by nlinarith
  have h2 : u < (6134 : ℚ)/10000 := by nlinarith
  unfold avoidCompute
  have hcol : redPillar500.color = colorRed := rfl
  rw [if_pos hcol]
  have harg : ((45 : ℤ) : ℚ) + u * (((80 : ℤ) : ℚ) - ((45 : ℤ) : ℚ)) +
      (((-1 : ℤ) : ℚ)) * redPillar500.angle * AvoidParams.default.angleGain =
      177/5 + 35 * u := by
    norm_num [redPillar500, AvoidParams.default]
    ring
  have htr : ratTrunc (((45 : ℤ) : ℚ) + u * (((80 : ℤ) : ℚ) - ((45 : ℤ) : ℚ)) +
      (((-1 : ℤ) : ℚ)) * redPillar500.angle * AvoidParams.default.angleGain) = 56 := by
    rw [harg]
    refine ratTrunc_eq_of_bounds _ 56 (by norm_num) ?_ ?_
    · push_cast; nlinarith
    · push_cast; nlinarith
  simp only [AvoidParams.default] at htr ⊢
  rw [htr]
  norm_num

theorem C8_avoid_red_500_witness :
    (0 : ℚ) ≤ 6123/10000 ∧
    ((6123 : ℚ)/10000 - 1/1000) ^ 2 < avoidLinear AvoidParams.default 500 ∧
    avoidLinear AvoidParams.default 500 < ((6123 : ℚ)/10000 + 1/1000) ^ 2 ∧
    avoidCompute AvoidParams.default redPillar500 (6123/10000) = (35, 34) := by
  have h0 : (0 : ℚ) ≤ 6123/10000 := by norm_num
  have h1 : ((6123 : ℚ)/10000 - 1/1000) ^ 2 < avoidLinear AvoidParams.default 500 := by
    norm_num [avoidLinear, AvoidParams.default]
  have h2 : avoidLinear AvoidParams.default 500 < ((6123 : ℚ)/10000 + 1/1000) ^ 2 := by
    norm_num [avoidLinear, AvoidParams.default]
  exact ⟨h0, h1, h2, C8_avoid_red_500 (6123/10000) h0 h1 h2⟩

theorem latchDirection_state (sm : StateMachine) (t : TrackMap) :
    (sm.latchDirection t).state = sm.state := by
  unfold StateMachine.latchDirection
  split
  · rfl
  · split <;> rfl

theorem latchDirection_avoidFrames (sm : StateMachine) (t : TrackMap) :
    (sm.latchDirection t).avoidFrames = sm.avoidFrames := by
  unfold StateMachine.latchDirection
  split
  · rfl
  · split <;> rfl

theorem updateAvoidPhase_state (sm : StateMachine) (p : Pillar) :
    (sm.updateAvoidPhase p).state = sm.state := by
  unfold StateMachine.updateAvoidPhase
  split <;> try rfl
  split <;> rfl

theorem updateAvoidPhase_avoidFrames (sm : StateMachine) (p : Pillar) :
    (sm.updateAvoidPhase p).avoidFrames = sm.avoidFrames := by
  unfold StateMachine.updateAvoidPhase
  split <;> try rfl
  split <;> rfl

theorem phasePostlude_state (sm : StateMachine) (w : WorldState) :
    (sm.phasePostlude w).state = sm.state := by
  unfold StateMachine.phasePostlude
  split
  · cases sm.findAvoidingPillar w <;> simp [updateAvoidPhase_state]
  · rfl

theorem phasePostlude_avoidFrames (sm : StateMachine) (w : WorldState) :
    (sm.phasePostlude w).avoidFrames = sm.avoidFrames := by
  unfold StateMachine.phasePostlude
  split
  · cases sm.findAvoidingPillar w <;> simp [updateAvoidPhase_avoidFrames]
  · rfl

theorem avoid_suppressed_step (sm : StateMachine) (w : WorldState)
    (t : TrackMap) (pc : Bool) (hst : sm.state = RobotState.AVOID_PILLAR)
    (hfr : sm.avoidFrames + 1 < minAvoidFrames) :
    (sm.decideStep w t pc).state = RobotState.AVOID_PILLAR ∧
    (sm.decideStep w t pc).avoidFrames = sm.avoidFrames + 1 := by
  have hni : ¬(sm.state = RobotState.IDLE ∨ sm.state = RobotState.DONE) := by
    rw [hst]; rintro (h | h) <;> exact absurd h (by decide)
  unfold StateMachine.decideStep
  rw [if_neg hni]
  have hst1 : (sm.latchDirection t).state = RobotState.AVOID_PILLAR := by
    rw [latchDirection_state, hst]
  have hfr1 : (sm.latchDirection t).avoidFrames = sm.avoidFrames :=
    latchDirection_avoidFrames sm t
  have hck : ((sm.latchDirection t).checkTransitions w t pc).state =
        RobotState.AVOID_PILLAR ∧
      ((sm.latchDirection t).checkTransitions w t pc).avoidFrames =
        sm.avoidFrames + 1 := by
    unfold StateMachine.checkTransitions
    rw [hst1]
    simp only [hfr1]
    rw [if_pos hfr]
    exact ⟨rfl, rfl⟩
  rw [phasePostlude_state, phasePostlude_avoidFrames]
  exact hck

theorem avoid_suppressed_run (steps : List (WorldState × TrackMap × Bool)) :
    ∀ sm : StateMachine, sm.state = RobotState.AVOID_PILLAR →
    sm.avoidFrames + steps.length < minAvoidFrames →
    (steps.foldl smTick sm).state = RobotState.AVOID_PILLAR ∧
    (steps.foldl smTick sm).avoidFrames = sm.avoidFrames + steps.length := by
  induction steps with
  | nil => intro sm hst _; exact ⟨hst, rfl⟩
  | cons x rest ih =>
    intro sm hst hlen
    have h1 : sm.avoidFrames + 1 < minAvoidFrames := by
      simp [List.length_cons] at hlen; omega
    have hstep := avoid_suppressed_step sm x.1 x.2.1 x.2.2 hst h1
    have := ih (smTick sm x) hstep.1 (by
      rw [show (smTick sm x) = sm.decideStep x.1 x.2.1 x.2.2 from rfl, hstep.2]
      simp [List.length_cons] at hlen ⊢; omega)
    refine ⟨this.1, ?_⟩
    rw [List.foldl_cons, this.2,
      show (smTick sm x) = sm.decideStep x.1 x.2.1 x.2.2 from rfl, hstep.2]
    simp [List.length_cons]; omega

/-- C4: from the tick that enters `AVOID_PILLAR` (`_avoid_frames = 0`), no
sequence of fewer than `min_avoid_frames = 25` decide ticks can leave the
state, whatever the `WorldState`s (and track maps) supplied: the
frames-in-state guard suppresses every transition. -/
theorem C4_avoid_hysteresis (sm : StateMachine)
    (steps : List (WorldState × TrackMap × Bool))
    (hst : sm.state = RobotState.AVOID_PILLAR) (h0 : sm.avoidFrames = 0)
    (hlen : steps.length < minAvoidFrames) :
    (steps.foldl smTick sm).state = RobotState.AVOID_PILLAR :=
  (avoid_suppressed_run steps sm hst (by omega)).1

theorem C4_avoid_hysteresis_witness :
    avoidEntry.state = RobotState.AVOID_PILLAR ∧ avoidEntry.avoidFrames = 0 ∧
    ([(wRedFar, TrackMap.init, false)].length < minAvoidFrames) ∧
    (([(wRedFar, TrackMap.init, false)].foldl smTick avoidEntry).state =
      RobotState.AVOID_PILLAR) :=
  ⟨rfl, rfl, by decide,
    C4_avoid_hysteresis avoidEntry [(wRedFar, TrackMap.init, false)] rfl rfl
      (by decide)⟩

/-! ### Stage lemmas for `TrackMap.update` -/

theorem initStep_corners (t : TrackMap) (e : ℤ) :
    (t.initStep e).corners = t.corners := by
  unfold TrackMap.initStep; split <;> rfl

theorem initStep_lastCornerEnc (t : TrackMap) (e : ℤ) :
    (t.initStep e).lastCornerEnc = t.lastCornerEnc := by
  unfold TrackMap.initStep; split <;> rfl

theorem initStep_cornerTolerance (t : TrackMap) (e : ℤ) :
    (t.initStep e).cornerTolerance = t.cornerTolerance := by
  unfold TrackMap.initStep; split <;> rfl

theorem initStep_pillarTolerance (t : TrackMap) (e : ℤ) :
    (t.initStep e).pillarTolerance = t.pillarTolerance := by
  unfold TrackMap.initStep; split <;> rfl

theorem initStep_direction (t : TrackMap) (e : ℤ) :
    (t.initStep e).direction = t.direction := by
  unfold TrackMap.initStep; split <;> rfl

theorem initStep_sections (t : TrackMap) (e : ℤ) :
    (t.initStep e).sections = t.sections := by
  unfold TrackMap.initStep; split <;> rfl

theorem initStep_pillars (t : TrackMap) (e : ℤ) :
    (t.initStep e).pillars = t.pillars := by
  unfold TrackMap.initStep; split <;> rfl

theorem initStep_parkingZone (t : TrackMap) (e : ℤ) :
    (t.initStep e).parkingZone = t.parkingZone := by
  unfold TrackMap.initStep; split <;> rfl

theorem initStep_lapLength (t : TrackMap) (e : ℤ) :
    (t.initStep e).lapLength = t.lapLength := by
  unfold TrackMap.initStep; split <;> rfl

theorem initStep_firstLap (t : TrackMap) (e : ℤ) :
    (t.initStep e).firstLap = t.firstLap := by
  unfold TrackMap.initStep; split <;> rfl

theorem initStep_sectionWidths (t : TrackMap) (e : ℤ) :
    (t.initStep e).sectionWidths = t.sectionWidths := by
  unfold TrackMap.initStep; split <;> rfl

theorem initStep_lapStart_isSome (t : TrackMap) (e : ℤ) :
    (t.initStep e).lapStart.isSome = true := by
  unfold TrackMap.initStep
  split
  · rfl
  · next h => exact Option.isSome_iff_ne_none.mpr h

theorem initStep_noop (t : TrackMap) (e : ℤ) (h : t.lapStart ≠ none) :
    t.initStep e = t := by
  unfold TrackMap.initStep
  rw [if_neg h]

theorem directionStep_corners (t : TrackMap) (w : WorldState) :
    (t.directionStep w).corners = t.corners := by
  unfold TrackMap.directionStep; split <;> rfl

theorem directionStep_lastCornerEnc (t : TrackMap) (w : WorldState) :
    (t.directionStep w).lastCornerEnc = t.lastCornerEnc := by
  unfold TrackMap.directionStep; split <;> rfl

theorem directionStep_cornerTolerance (t : TrackMap) (w : WorldState) :
    (t.directionStep w).cornerTolerance = t.cornerTolerance := by
  unfold TrackMap.directionStep; split <;> rfl

theorem directionStep_pillarTolerance (t : TrackMap) (w : WorldState) :
    (t.directionStep w).pillarTolerance = t.pillarTolerance := by
  unfold TrackMap.directionStep; split <;> rfl

theorem directionStep_sections (t : TrackMap) (w : WorldState) :
    (t.directionStep w).sections = t.sections := by
  unfold TrackMap.directionStep; split <;> rfl

theorem directionStep_pillars (t : TrackMap) (w : WorldState) :
    (t.directionStep w).pillars = t.pillars := by
  unfold TrackMap.directionStep; split <;> rfl

theorem directionStep_parkingZone (t : TrackMap) (w : WorldState) :
    (t.directionStep w).parkingZone = t.parkingZone := by
  unfold TrackMap.directionStep; split <;> rfl

theorem directionStep_lapLength (t : TrackMap) (w : WorldState) :
    (t.directionStep w).lapLength = t.lapLength := by
  unfold TrackMap.directionStep; split <;> rfl

theorem directionStep_firstLap (t : TrackMap) (w : WorldState) :
    (t.directionStep w).firstLap = t.firstLap := by
  unfold TrackMap.directionStep; split <;> rfl

theorem directionStep_lapStart (t : TrackMap) (w : WorldState) :
    (t.directionStep w).lapStart = t.lapStart := by
  unfold TrackMap.directionStep; split <;> rfl

theorem directionStep_sectionWidths (t : TrackMap) (w : WorldState) :
    (t.directionStep w).sectionWidths = t.sectionWidths := by
  unfold TrackMap.directionStep; split <;> rfl

theorem directionStep_sectionStart (t : TrackMap) (w : WorldState) :
    (t.directionStep w).sectionStart = t.sectionStart := by
  unfold TrackMap.directionStep; split <;> rfl

theorem directionStep_direction_after (t : TrackMap) (w : WorldState) :
    (t.directionStep w).direction ≠ none ∨ w.cornerAhead = none := by
  unfold TrackMap.directionStep
  split
  · left; simp
  · next h =>
    rcases not_and_or.mp h with h1 | h2
    · left; exact h1
    · right; cases hw : w.cornerAhead with
      | none => rfl
      | some d => rw [hw] at h2; simp at h2

theorem directionStep_noop (t : TrackMap) (w : WorldState)
    (h : t.direction ≠ none ∨ w.cornerAhead = none) : t.directionStep w = t := by
  unfold TrackMap.directionStep
  rcases h with h | h
  · rw [if_neg (by simp [h])]
  · rw [if_neg (by simp [h])]

theorem finalizeSection_corners (t : TrackMap) (e : ℤ) :
    (t.finalizeSection e).corners = t.corners := by
  unfold TrackMap.finalizeSection; split <;> (try rfl); split <;> rfl

theorem finalizeSection_lastCornerEnc (t : TrackMap) (e : ℤ) :
    (t.finalizeSection e).lastCornerEnc = t.lastCornerEnc := by
  unfold TrackMap.finalizeSection; split <;> (try rfl); split <;> rfl

theorem finalizeSection_cornerTolerance (t : TrackMap) (e : ℤ) :
    (t.finalizeSection e).cornerTolerance = t.cornerTolerance := by
  unfold TrackMap.finalizeSection; split <;> (try rfl); split <;> rfl

theorem finalizeSection_pillarTolerance (t : TrackMap) (e : ℤ) :
    (t.finalizeSection e).pillarTolerance = t.pillarTolerance := by
  unfold TrackMap.finalizeSection; split <;> (try rfl); split <;> rfl

theorem finalizeSection_direction (t : TrackMap) (e : ℤ) :
    (t.finalizeSection e).direction = t.direction := by
  unfold TrackMap.finalizeSection; split <;> (try rfl); split <;> rfl

theorem finalizeSection_pillars (t : TrackMap) (e : ℤ) :
    (t.finalizeSection e).pillars = t.pillars := by
  unfold TrackMap.finalizeSection; split <;> (try rfl); split <;> rfl

theorem finalizeSection_parkingZone (t : TrackMap) (e : ℤ) :
    (t.finalizeSection e).parkingZone = t.parkingZone := by
  unfold TrackMap.finalizeSection; split <;> (try rfl); split <;> rfl

theorem finalizeSection_lapLength (t : TrackMap) (e : ℤ) :
    (t.finalizeSection e).lapLength = t.lapLength := by
  unfold TrackMap.finalizeSection; split <;> (try rfl); split <;> rfl

theorem finalizeSection_firstLap (t : TrackMap) (e : ℤ) :
    (t.finalizeSection e).firstLap = t.firstLap := by
  unfold TrackMap.finalizeSection; split <;> (try rfl); split <;> rfl

theorem finalizeSection_lapStart (t : TrackMap) (e : ℤ) :
    (t.finalizeSection e).lapStart = t.lapStart := by
  unfold TrackMap.finalizeSection; split <;> (try rfl); split <;> rfl

theorem finalizeSection_sectionWidths (t : TrackMap) (e : ℤ) :
    (t.finalizeSection e).sectionWidths = t.sectionWidths := by
  unfold TrackMap.finalizeSection; split <;> (try rfl); split <;> rfl

theorem finalizeSection_sectionStart (t : TrackMap) (e : ℤ) :
    (t.finalizeSection e).sectionStart = t.sectionStart := by
  unfold TrackMap.finalizeSection; split <;> (try rfl); split <;> rfl

theorem updateCorners_cornerTolerance (t : TrackMap) (w : WorldState) :
    (t.updateCorners w).cornerTolerance = t.cornerTolerance := by
  unfold TrackMap.updateCorners
  split <;> (try rfl); split
  · rfl
  · simp [finalizeSection_cornerTolerance]

theorem updateCorners_pillarTolerance (t : TrackMap) (w : WorldState) :
    (t.updateCorners w).pillarTolerance = t.pillarTolerance := by
  unfold TrackMap.updateCorners
  split <;> (try rfl); split
  · rfl
  · simp [finalizeSection_pillarTolerance]

theorem updateCorners_direction (t : TrackMap) (w : WorldState) :
    (t.updateCorners w).direction = t.direction := by
  unfold TrackMap.updateCorners
  split <;> (try rfl); split
  · rfl
  · simp [finalizeSection_direction]

theorem updateCorners_pillars (t : TrackMap) (w : WorldState) :
    (t.updateCorners w).pillars = t.pillars := by
  unfold TrackMap.updateCorners
  split <;> (try rfl); split
  · rfl
  · simp [finalizeSection_pillars]

theorem updateCorners_parkingZone (t : TrackMap) (w : WorldState) :
    (t.updateCorners w).parkingZone = t.parkingZone := by
  unfold TrackMap.updateCorners
  split <;> (try rfl); split
  · rfl
  · simp [finalizeSection_parkingZone]

theorem updateCorners_lapLength (t : TrackMap) (w : WorldState) :
    (t.updateCorners w).lapLength = t.lapLength := by
  unfold TrackMap.updateCorners
  split <;> (try rfl); split
  · rfl
  · simp [finalizeSection_lapLength]

theorem updateCorners_firstLap (t : TrackMap) (w : WorldState) :
    (t.updateCorners w).firstLap = t.firstLap := by
  unfold TrackMap.updateCorners
  split <;> (try rfl); split
  · rfl
  · simp [finalizeSection_firstLap]

theorem updateCorners_lapStart (t : TrackMap) (w : WorldState) :
    (t.updateCorners w).lapStart = t.lapStart := by
  unfold TrackMap.updateCorners
  split <;> (try rfl); split
  · rfl
  · simp [finalizeSection_lapStart]

theorem updateSections_eq (t : TrackMap) (w : WorldState) :
    t.updateSections w =
      { t with sectionWidths := t.sectionWidths ++ w.corridorWidth.toList } := by
  unfold TrackMap.updateSections
  cases h : w.corridorWidth <;> simp [Option.toList]

theorem updateSections_corners (t : TrackMap) (w : WorldState) :
    (t.updateSections w).corners = t.corners := by
  rw [updateSections_eq]

theorem updateSections_lastCornerEnc (t : TrackMap) (w : WorldState) :
    (t.updateSections w).lastCornerEnc = t.lastCornerEnc := by
  rw [updateSections_eq]

theorem updateSections_cornerTolerance (t : TrackMap) (w : WorldState) :
    (t.updateSections w).cornerTolerance = t.cornerTolerance := by
  rw [updateSections_eq]

theorem updateSections_pillarTolerance (t : TrackMap) (w : WorldState) :
    (t.updateSections w).pillarTolerance = t.pillarTolerance := by
  rw [updateSections_eq]

theorem updateSections_direction (t : TrackMap) (w : WorldState) :
    (t.updateSections w).direction = t.direction := by
  rw [updateSections_eq]

theorem updateSections_sections (t : TrackMap) (w : WorldState) :
    (t.updateSections w).sections = t.sections := by
  rw [updateSections_eq]

theorem updateSections_pillars (t : TrackMap) (w : WorldState) :
    (t.updateSections w).pillars = t.pillars := by
  rw [updateSections_eq]

theorem updateSections_parkingZone (t : TrackMap) (w : WorldState) :
    (t.updateSections w).parkingZone = t.parkingZone := by
  rw [updateSections_eq]

theorem updateSections_lapLength (t : TrackMap) (w : WorldState) :
    (t.updateSections w).lapLength = t.lapLength := by
  rw [updateSections_eq]

theorem updateSections_firstLap (t : TrackMap) (w : WorldState) :
    (t.updateSections w).firstLap = t.firstLap := by
  rw [updateSections_eq]

theorem updateSections_lapStart (t : TrackMap) (w : WorldState) :
    (t.updateSections w).lapStart = t.lapStart := by
  rw [updateSections_eq]

theorem updateSections_sectionStart (t : TrackMap) (w : WorldState) :
    (t.updateSections w).sectionStart = t.sectionStart := by
  rw [updateSections_eq]

theorem pillarStep_corners (e : ℤ) (t : TrackMap) (p : Pillar) :
    (TrackMap.pillarStep e t p).corners = t.corners := by
  unfold TrackMap.pillarStep; split <;> rfl

theorem pillarStep_lastCornerEnc (e : ℤ) (t : TrackMap) (p : Pillar) :
    (TrackMap.pillarStep e t p).lastCornerEnc = t.lastCornerEnc := by
  unfold TrackMap.pillarStep; split <;> rfl

theorem pillarStep_cornerTolerance (e : ℤ) (t : TrackMap) (p : Pillar) :
    (TrackMap.pillarStep e t p).cornerTolerance = t.cornerTolerance := by
  unfold TrackMap.pillarStep; split <;> rfl

theorem pillarStep_pillarTolerance (e : ℤ) (t : TrackMap) (p : Pillar) :
    (TrackMap.pillarStep e t p).pillarTolerance = t.pillarTolerance := by
  unfold TrackMap.pillarStep; split <;> rfl

theorem pillarStep_direction (e : ℤ) (t : TrackMap) (p : Pillar) :
    (TrackMap.pillarStep e t p).direction = t.direction := by
  unfold TrackMap.pillarStep; split <;> rfl

theorem pillarStep_sections (e : ℤ) (t : TrackMap) (p : Pillar) :
    (TrackMap.pillarStep e t p).sections = t.sections := by
  unfold TrackMap.pillarStep; split <;> rfl

theorem pillarStep_parkingZone (e : ℤ) (t : TrackMap) (p : Pillar) :
    (TrackMap.pillarStep e t p).parkingZone = t.parkingZone := by
  unfold TrackMap.pillarStep; split <;> rfl

theorem pillarStep_lapLength (e : ℤ) (t : TrackMap) (p : Pillar) :
    (TrackMap.pillarStep e t p).lapLength = t.lapLength := by
  unfold TrackMap.pillarStep; split <;> rfl

theorem pillarStep_firstLap (e : ℤ) (t : TrackMap) (p : Pillar) :
    (TrackMap.pillarStep e t p).firstLap = t.firstLap := by
  unfold TrackMap.pillarStep; split <;> rfl

theorem pillarStep_lapStart (e : ℤ) (t : TrackMap) (p : Pillar) :
    (TrackMap.pillarStep e t p).lapStart = t.lapStart := by
  unfold TrackMap.pillarStep; split <;> rfl

theorem pillarStep_sectionWidths (e : ℤ) (t : TrackMap) (p : Pillar) :
    (TrackMap.pillarStep e t p).sectionWidths = t.sectionWidths := by
  unfold TrackMap.pillarStep; split <;> rfl

theorem pillarStep_sectionStart (e : ℤ) (t : TrackMap) (p : Pillar) :
    (TrackMap.pillarStep e t p).sectionStart = t.sectionStart := by
  unfold TrackMap.pillarStep; split <;> rfl

theorem foldl_pillarStep_agree {α : Type} (f : TrackMap → α) (e : ℤ)
    (hf : ∀ t p, f (TrackMap.pillarStep e t p) = f t) (ps : List Pillar) :
    ∀ t : TrackMap, f (ps.foldl (TrackMap.pillarStep e) t) = f t := by
  induction ps with
  | nil => intro t; rfl
  | cons p rest ih => intro t; rw [List.foldl_cons, ih, hf]

theorem updatePillars_corners (t : TrackMap) (w : WorldState) :
    (t.updatePillars w).corners = t.corners :=
  foldl_pillarStep_agree (fun x => x.corners) w.encoderPos
    (fun t p => pillarStep_corners w.encoderPos t p) w.pillars t

theorem updatePillars_lastCornerEnc (t : TrackMap) (w : WorldState) :
    (t.updatePillars w).lastCornerEnc = t.lastCornerEnc :=
  foldl_pillarStep_agree (fun x => x.lastCornerEnc) w.encoderPos
    (fun t p => pillarStep_lastCornerEnc w.encoderPos t p) w.pillars t

theorem updatePillars_cornerTolerance (t : TrackMap) (w : WorldState) :
    (t.updatePillars w).cornerTolerance = t.cornerTolerance :=
  foldl_pillarStep_agree (fun x => x.cornerTolerance) w.encoderPos
    (fun t p => pillarStep_cornerTolerance w.encoderPos t p) w.pillars t

theorem updatePillars_pillarTolerance (t : TrackMap) (w : WorldState) :
    (t.updatePillars w).pillarTolerance = t.pillarTolerance :=
  foldl_pillarStep_agree (fun x => x.pillarTolerance) w.encoderPos
    (fun t p => pillarStep_pillarTolerance w.encoderPos t p) w.pillars t

theorem updatePillars_direction (t : TrackMap) (w : WorldState) :
    (t.updatePillars w).direction = t.direction :=
  foldl_pillarStep_agree (fun x => x.direction) w.encoderPos
    (fun t p => pillarStep_direction w.encoderPos t p) w.pillars t

theorem updatePillars_sections (t : TrackMap) (w : WorldState) :
    (t.updatePillars w).sections = t.sections :=
  foldl_pillarStep_agree (fun x => x.sections) w.encoderPos
    (fun t p => pillarStep_sections w.encoderPos t p) w.pillars t

theorem updatePillars_parkingZone (t : TrackMap) (w : WorldState) :
    (t.updatePillars w).parkingZone = t.parkingZone :=
  foldl_pillarStep_agree (fun x => x.parkingZone) w.encoderPos
    (fun t p => pillarStep_parkingZone w.encoderPos t p) w.pillars t

theorem updatePillars_lapLength (t : TrackMap) (w : WorldState) :
    (t.updatePillars w).lapLength = t.lapLength :=
  foldl_pillarStep_agree (fun x => x.lapLength) w.encoderPos
    (fun t p => pillarStep_lapLength w.encoderPos t p) w.pillars t

theorem updatePillars_firstLap (t : TrackMap) (w : WorldState) :
    (t.updatePillars w).firstLap = t.firstLap :=
  foldl_pillarStep_agree (fun x => x.firstLap) w.encoderPos
    (fun t p => pillarStep_firstLap w.encoderPos t p) w.pillars t

theorem updatePillars_lapStart (t : TrackMap) (w : WorldState) :
    (t.updatePillars w).lapStart = t.lapStart :=
  foldl_pillarStep_agree (fun x => x.lapStart) w.encoderPos
    (fun t p => pillarStep_lapStart w.encoderPos t p) w.pillars t

theorem updatePillars_sectionWidths (t : TrackMap) (w : WorldState) :
    (t.updatePillars w).sectionWidths = t.sectionWidths :=
  foldl_pillarStep_agree (fun x => x.sectionWidths) w.encoderPos
    (fun t p => pillarStep_sectionWidths w.encoderPos t p) w.pillars t

theorem updatePillars_sectionStart (t : TrackMap) (w : WorldState) :
    (t.updatePillars w).sectionStart = t.sectionStart :=
  foldl_pillarStep_agree (fun x => x.sectionStart) w.encoderPos
    (fun t p => pillarStep_sectionStart w.encoderPos t p) w.pillars t

theorem updateParking_corners (t : TrackMap) (w : WorldState) :
    (t.updateParking w).corners = t.corners := by
  unfold TrackMap.updateParking; split <;> rfl

theorem updateParking_lastCornerEnc (t : TrackMap) (w : WorldState) :
    (t.updateParking w).lastCornerEnc = t.lastCornerEnc := by
  unfold TrackMap.updateParking; split <;> rfl

theorem updateParking_cornerTolerance (t : TrackMap) (w : WorldState) :
    (t.updateParking w).cornerTolerance = t.cornerTolerance := by
  unfold TrackMap.updateParking; split <;> rfl

theorem updateParking_pillarTolerance (t : TrackMap) (w : WorldState) :
    (t.updateParking w).pillarTolerance = t.pillarTolerance := by
  unfold TrackMap.updateParking; split <;> rfl

theorem updateParking_direction (t : TrackMap) (w : WorldState) :
    (t.updateParking w).direction = t.direction := by
  unfold TrackMap.updateParking; split <;> rfl

theorem updateParking_sections (t : TrackMap) (w : WorldState) :
    (t.updateParking w).sections = t.sections := by
  unfold TrackMap.updateParking; split <;> rfl

theorem updateParking_pillars (t : TrackMap) (w : WorldState) :
    (t.updateParking w).pillars = t.pillars := by
  unfold TrackMap.updateParking; split <;> rfl

theorem updateParking_lapLength (t : TrackMap) (w : WorldState) :
    (t.updateParking w).lapLength = t.lapLength := by
  unfold TrackMap.updateParking; split <;> rfl

theorem updateParking_firstLap (t : TrackMap) (w : WorldState) :
    (t.updateParking w).firstLap = t.firstLap := by
  unfold TrackMap.updateParking; split <;> rfl

theorem updateParking_lapStart (t : TrackMap) (w : WorldState) :
    (t.updateParking w).lapStart = t.lapStart := by
  unfold TrackMap.updateParking; split <;> rfl

theorem updateParking_sectionWidths (t : TrackMap) (w : WorldState) :
    (t.updateParking w).sectionWidths = t.sectionWidths := by
  unfold TrackMap.updateParking; split <;> rfl

theorem updateParking_sectionStart (t : TrackMap) (w : WorldState) :
    (t.updateParking w).sectionStart = t.sectionStart := by
  unfold TrackMap.updateParking; split <;> rfl

theorem updateParking_after (t : TrackMap) (w : WorldState) :
    (t.updateParking w).parkingZone ≠ none ∨ w.parkingMarker = none := by
  unfold TrackMap.updateParking
  split
  · left; simp
  · next h =>
    rcases not_and_or.mp h with h1 | h2
    · right
      cases hw : w.parkingMarker with
      | none => rfl
      | some d => rw [hw] at h1; simp at h1
    · left; exact h2

theorem updateParking_noop (t : TrackMap) (w : WorldState)
    (h : w.parkingMarker = none ∨ t.parkingZone ≠ none) : t.updateParking w = t := by
  unfold TrackMap.updateParking
  rcases h with h | h
  · rw [if_neg (by simp [h])]
  · rw [if_neg (by simp [h])]

theorem finalizeLap_corners (t : TrackMap) (e : ℤ) :
    (t.finalizeLap e).corners = t.corners := by
  unfold TrackMap.finalizeLap; split <;> rfl

theorem finalizeLap_lastCornerEnc (t : TrackMap) (e : ℤ) :
    (t.finalizeLap e).lastCornerEnc = t.lastCornerEnc := by
  unfold TrackMap.finalizeLap; split <;> rfl

theorem finalizeLap_cornerTolerance (t : TrackMap) (e : ℤ) :
    (t.finalizeLap e).cornerTolerance = t.cornerTolerance := by
  unfold TrackMap.finalizeLap; split <;> rfl

theorem finalizeStep_corners (t : TrackMap) (e : ℤ) :
    (t.finalizeStep e).corners = t.corners := by
  unfold TrackMap.finalizeStep
  split
  · exact finalizeLap_corners t e
  · rfl

theorem finalizeStep_lastCornerEnc (t : TrackMap) (e : ℤ) :
    (t.finalizeStep e).lastCornerEnc = t.lastCornerEnc := by
  unfold TrackMap.finalizeStep
  split
  · exact finalizeLap_lastCornerEnc t e
  · rfl

theorem finalizeStep_cornerTolerance (t : TrackMap) (e : ℤ) :
    (t.finalizeStep e).cornerTolerance = t.cornerTolerance := by
  unfold TrackMap.finalizeStep
  split
  · exact finalizeLap_cornerTolerance t e
  · rfl

theorem finalizeStep_noop (t : TrackMap) (e : ℤ)
    (h : ¬(4 ≤ t.corners.length ∧ t.lapLength = none)) : t.finalizeStep e = t := by
  unfold TrackMap.finalizeStep
  rw [if_neg h]

theorem finalizeStep_firstLap_true (t : TrackMap) (e : ℤ)
    (hls : t.lapStart.isSome = true) (h : (t.finalizeStep e).firstLap = true) :
    ¬(4 ≤ t.corners.length ∧ t.lapLength = none) ∧ t.finalizeStep e = t := by
  unfold TrackMap.finalizeStep at h ⊢
  split at h
  · exfalso
    unfold TrackMap.finalizeLap at h
    cases hl : t.lapStart with
    | none => rw [hl] at hls; simp at hls
    | some s => rw [hl] at h; simp at h
  · next hcond => exact ⟨hcond, by rw [if_neg hcond]⟩

/-! ### C7: corner spacing -/

theorem cornerInv_congr (t t' : TrackMap) (hc : t'.corners = t.corners)
    (hl : t'.lastCornerEnc = t.lastCornerEnc)
    (ht : t'.cornerTolerance = t.cornerTolerance) (h : CornerInv t) :
    CornerInv t' := by
  unfold CornerInv at h ⊢
  rw [hc, hl, ht]
  exact h

theorem cornerInv_updateCorners (t : TrackMap) (w : WorldState)
    (h : CornerInv t) : CornerInv (t.updateCorners w) := by
  unfold TrackMap.updateCorners
  split
  · exact h
  · next dir _ =>
    split
    · exact h
    · next hgate =>
      have hle : t.cornerTolerance ≤ |w.encoderPos - t.lastCornerEnc| :=
        not_lt.mp hgate
      constructor
      · show List.Chain' _ _
        have hc : ({ t.finalizeSection w.encoderPos with
            corners := t.corners ++ [Corner.mk w.encoderPos dir] } :
              TrackMap).corners = t.corners ++ [Corner.mk w.encoderPos dir] := rfl
        simp only [finalizeSection_corners, finalizeSection_cornerTolerance,
          updateSections_eq]
        refine List.Chain'.append ?_ ?_ ?_
        · exact h.1
        · exact List.chain'_singleton _
        · intro x hx y hy
          simp only [List.head?_cons, Option.mem_def, Option.some.injEq] at hy
          subst hy
          have hxe : x.encoderPos = t.lastCornerEnc := h.2 x hx
          simp only [hxe]
          exact hle
      · intro c hc
        simp only [finalizeSection_corners, finalizeSection_lastCornerEnc] at hc ⊢
        rw [List.getLast?_append_cons] at hc
        simp only [List.getLast?_singleton, Option.mem_def,
          Option.some.injEq] at hc
        subst hc
        rfl

theorem cornerInv_update (t : TrackMap) (w : WorldState) (h : CornerInv t) :
    CornerInv (t.update w) := by
  unfold TrackMap.update
  split
  · exact h
  · have h1 : CornerInv ((t.initStep w.encoderPos).directionStep w) := by
      refine cornerInv_congr t _ ?_ ?_ ?_ h <;>
        simp [directionStep_corners, directionStep_lastCornerEnc,
          directionStep_cornerTolerance, initStep_corners,
          initStep_lastCornerEnc, initStep_cornerTolerance]
    have h2 := cornerInv_updateCorners _ w h1
    refine cornerInv_congr _ _ ?_ ?_ ?_ h2 <;>
      simp [TrackMap.updateBody, finalizeStep_corners,
        finalizeStep_lastCornerEnc, finalizeStep_cornerTolerance,
        updateParking_corners, updateParking_lastCornerEnc,
        updateParking_cornerTolerance, updatePillars_corners,
        updatePillars_lastCornerEnc, updatePillars_cornerTolerance,
        updateSections_corners, updateSections_lastCornerEnc,
        updateSections_cornerTolerance]

theorem update_cornerTolerance (t : TrackMap) (w : WorldState) :
    (t.update w).cornerTolerance = t.cornerTolerance := by
  unfold TrackMap.update
  split
  · rfl
  · simp [TrackMap.updateBody, finalizeStep_cornerTolerance,
      updateParking_cornerTolerance, updatePillars_cornerTolerance,
      updateSections_cornerTolerance, updateCorners_cornerTolerance,
      directionStep_cornerTolerance, initStep_cornerTolerance]

theorem run_cornerInv (ws : List WorldState) :
    ∀ t : TrackMap, CornerInv t → CornerInv (t.run ws) := by
  induction ws with
  | nil => intro t h; exact h
  | cons w rest ih =>
    intro t h
    exact ih (t.update w) (cornerInv_update t w h)

theorem run_cornerTolerance (ws : List WorldState) :
    ∀ t : TrackMap, (t.run ws).cornerTolerance = t.cornerTolerance := by
  induction ws with
  | nil => intro t; rfl
  | cons w rest ih =>
    intro t
    show (TrackMap.run _ rest).cornerTolerance = _
    rw [ih, update_cornerTolerance]

/-- C7: after any sequence of first-lap updates from a fresh `TrackMap`
(default `corner_tolerance = 100`), any two consecutive recorded corners
differ in encoder position by at least 100 ticks: a candidate within the
tolerance of the most recent corner is never appended. -/
theorem C7_corner_spacing (ws : List WorldState) :
    List.Chain' (fun a b => (100 : ℤ) ≤ |b.encoderPos - a.encoderPos|)
      (TrackMap.init.run ws).corners := by
  have hinv : CornerInv (TrackMap.init.run ws) := by
    refine run_cornerInv ws TrackMap.init ?_
    constructor
    · exact List.chain'_nil
    · intro c hc
      simp [TrackMap.init] at hc
  have htol : (TrackMap.init.run ws).cornerTolerance = 100 :=
    run_cornerTolerance ws TrackMap.init
  have := hinv.1
  rw [htol] at this
  exact this

/-! ### C2: corner count, lap count -/

theorem updateCorners_corners_cases (t : TrackMap) (w : WorldState) :
    (t.updateCorners w).corners = t.corners ∨
    ∃ c, (t.updateCorners w).corners = t.corners ++ [c] := by
  unfold TrackMap.updateCorners
  split
  · left; rfl
  · next dir _ =>
    split
    · left; rfl
    · right
      exact ⟨Corner.mk w.encoderPos dir, by simp [finalizeSection_corners]⟩

theorem updateBody_corners_le (t : TrackMap) (w : WorldState) :
    (t.updateBody w).corners.length ≤ t.corners.length + 1 := by
  have hb : (t.updateBody w).corners =
      (((t.initStep w.encoderPos).directionStep w).updateCorners w).corners := by
    simp [TrackMap.updateBody, updateParking_corners, updatePillars_corners,
      updateSections_corners]
  rw [hb]
  rcases updateCorners_corners_cases ((t.initStep w.encoderPos).directionStep w) w
    with hc | ⟨c, hc⟩ <;>
    rw [hc] <;> simp [directionStep_corners, initStep_corners]

theorem updateBody_firstLap (t : TrackMap) (w : WorldState) :
    (t.updateBody w).firstLap = t.firstLap := by
  simp [TrackMap.updateBody, updateParking_firstLap, updatePillars_firstLap,
    updateSections_firstLap, updateCorners_firstLap, directionStep_firstLap,
    initStep_firstLap]

theorem updateBody_lapLength (t : TrackMap) (w : WorldState) :
    (t.updateBody w).lapLength = t.lapLength := by
  simp [TrackMap.updateBody, updateParking_lapLength, updatePillars_lapLength,
    updateSections_lapLength, updateCorners_lapLength, directionStep_lapLength,
    initStep_lapLength]

theorem updateBody_lapStart_isSome (t : TrackMap) (w : WorldState) :
    (t.updateBody w).lapStart.isSome = true := by
  rw [show (t.updateBody w).lapStart = (t.initStep w.encoderPos).lapStart by
    simp [TrackMap.updateBody, updateParking_lapStart, updatePillars_lapStart,
      updateSections_lapStart, updateCorners_lapStart, directionStep_lapStart]]
  exact initStep_lapStart_isSome t w.encoderPos

theorem finalizeLap_firstLap_of_isSome (t : TrackMap) (e : ℤ)
    (h : t.lapStart.isSome = true) : (t.finalizeLap e).firstLap = false := by
  unfold TrackMap.finalizeLap
  cases hl : t.lapStart with
  | none => rw [hl] at h; simp at h
  | some s => rfl

theorem trackInv_update (t : TrackMap) (w : WorldState) (h : TrackInv t) :
    TrackInv (t.update w) := by
  unfold TrackMap.update
  split
  · exact h
  · next hfl =>
    have hft : t.firstLap = true := by
      cases hb : t.firstLap
      · exact absurd hb hfl
      · rfl
    obtain ⟨hlen3, hlapnone⟩ := h.2 hft
    have hlen : (t.updateBody w).corners.length ≤ 4 := by
      have := updateBody_corners_le t w
      omega
    have hBlap : (t.updateBody w).lapLength = none := by
      rw [updateBody_lapLength]; exact hlapnone
    unfold TrackMap.finalizeStep
    split
    · constructor
      · rw [finalizeLap_corners]; exact hlen
      · intro hml
        rw [finalizeLap_firstLap_of_isSome _ _ (updateBody_lapStart_isSome t w)]
          at hml
        cases hml
    · next hguard =>
      refine ⟨hlen, fun _ => ⟨?_, hBlap⟩⟩
      rcases not_and_or.mp hguard with hg | hg
      · omega
      · exact absurd hBlap hg

theorem update_corners_length_le (t : TrackMap) (w : WorldState) :
    (t.update w).corners.length ≤ t.corners.length + 1 := by
  unfold TrackMap.update
  split
  · omega
  · rw [finalizeStep_corners]
    exact updateBody_corners_le t w

theorem latchDirection_lapCount (sm : StateMachine) (t : TrackMap) :
    (sm.latchDirection t).lapCount = sm.lapCount := by
  unfold StateMachine.latchDirection
  split
  · rfl
  · split <;> rfl

theorem latchDirection_targetLaps (sm : StateMachine) (t : TrackMap) :
    (sm.latchDirection t).targetLaps = sm.targetLaps := by
  unfold StateMachine.latchDirection
  split
  · rfl
  · split <;> rfl

theorem updateAvoidPhase_lapCount (sm : StateMachine) (p : Pillar) :
    (sm.updateAvoidPhase p).lapCount = sm.lapCount := by
  unfold StateMachine.updateAvoidPhase
  split <;> try rfl
  split <;> rfl

theorem updateAvoidPhase_targetLaps (sm : StateMachine) (p : Pillar) :
    (sm.updateAvoidPhase p).targetLaps = sm.targetLaps := by
  unfold StateMachine.updateAvoidPhase
  split <;> try rfl
  split <;> rfl

theorem phasePostlude_lapCount (sm : StateMachine) (w : WorldState) :
    (sm.phasePostlude w).lapCount = sm.lapCount := by
  unfold StateMachine.phasePostlude
  split
  · cases sm.findAvoidingPillar w <;> simp [updateAvoidPhase_lapCount]
  · rfl

theorem phasePostlude_targetLaps (sm : StateMachine) (w : WorldState) :
    (sm.phasePostlude w).targetLaps = sm.targetLaps := by
  unfold StateMachine.phasePostlude
  split
  · cases sm.findAvoidingPillar w <;> simp [updateAvoidPhase_targetLaps]
  · rfl

theorem smInv_congr (sm sm' : StateMachine) (hs : sm'.state = sm.state)
    (hl : sm'.lapCount = sm.lapCount) (ht : sm'.targetLaps = sm.targetLaps)
    (h : SMInv sm) : SMInv sm' := by
  unfold SMInv at h ⊢
  rw [hs, hl, ht]
  exact h

theorem smInv_checkTransitions (sm : StateMachine) (w : WorldState)
    (t : TrackMap) (pc : Bool) (hs : SMInv sm) (ht : TrackInv t) :
    SMInv (sm.checkTransitions w t pc) := by
  obtain ⟨st, lap, tgt, dir, av, ph, fr, hp⟩ := sm
  obtain ⟨hlap, htarget, hpark, hdone⟩ := hs
  simp only at hlap htarget hpark hdone
  unfold StateMachine.checkTransitions
  cases st with
  | IDLE => exact ⟨hlap, htarget, hpark, hdone⟩
  | DONE => exact absurd rfl hdone
  | PARKING => exact absurd rfl hpark
  | WALL_FOLLOW =>
    cases w.blockingPillar with
    | some p =>
      dsimp only
      refine ⟨hlap, htarget, ?_, ?_⟩ <;> simp
    | none =>
      dsimp only
      split
      · refine ⟨hlap, htarget, ?_, ?_⟩ <;> simp
      · rw [if_neg (by intro hc; exact absurd hc.1 (by omega))]
        exact ⟨hlap, htarget, hpark, hdone⟩
  | AVOID_PILLAR =>
    dsimp only
    split
    · exact ⟨hlap, htarget, hpark, hdone⟩
    · split
      · refine ⟨hlap, htarget, ?_, ?_⟩ <;> simp
      · exact ⟨hlap, htarget, hpark, hdone⟩
  | CORNER =>
    cases w.blockingPillar with
    | some p =>
      dsimp only
      refine ⟨hlap, htarget, ?_, ?_⟩ <;> simp
    | none =>
      dsimp only
      split
      · exact ⟨hlap, htarget, hpark, hdone⟩
      · split
        · have hdiv : t.cornerCount / 4 ≤ 1 := by
            have := ht.1
            unfold TrackMap.cornerCount
            omega
          rw [if_neg (by simp only [htarget]; omega)]
          refine ⟨hdiv, htarget, ?_, ?_⟩ <;> simp
        · refine ⟨hlap, htarget, ?_, ?_⟩ <;> simp

theorem smInv_decideStep (sm : StateMachine) (w : WorldState) (t : TrackMap)
    (pc : Bool) (hs : SMInv sm) (ht : TrackInv t) :
    SMInv (sm.decideStep w t pc) := by
  unfold StateMachine.decideStep
  split
  · exact hs
  · have h1 : SMInv (sm.latchDirection t) :=
      smInv_congr sm _ (latchDirection_state sm t) (latchDirection_lapCount sm t)
        (latchDirection_targetLaps sm t) hs
    have h2 := smInv_checkTransitions (sm.latchDirection t) w t pc h1 ht
    exact smInv_congr _ _ (phasePostlude_state _ w) (phasePostlude_lapCount _ w)
      (phasePostlude_targetLaps _ w) h2

theorem systemStep_inv (s : TrackMap × StateMachine) (x : WorldState × Bool)
    (h : TrackInv s.1 ∧ SMInv s.2) :
    TrackInv (systemStep s x).1 ∧ SMInv (systemStep s x).2 := by
  refine ⟨trackInv_update s.1 x.1 h.1, ?_⟩
  exact smInv_decideStep s.2 x.1 (s.1.update x.1) x.2 h.2
    (trackInv_update s.1 x.1 h.1)

theorem systemRun_inv (steps : List (WorldState × Bool)) :
    TrackInv (systemRun steps).1 ∧ SMInv (systemRun steps).2 := by
  unfold systemRun
  have hgen : ∀ (l : List (WorldState × Bool)) (s : TrackMap × StateMachine),
      TrackInv s.1 ∧ SMInv s.2 →
      TrackInv (l.foldl systemStep s).1 ∧ SMInv (l.foldl systemStep s).2 := by
    intro l
    induction l with
    | nil => intro s h; exact h
    | cons x rest ih => intro s h; exact ih (systemStep s x) (systemStep_inv s x h)
  refine hgen steps (TrackMap.init, StateMachine.init.start) ⟨?_, ?_⟩
  · exact ⟨by simp [TrackMap.init], fun _ => ⟨by simp [TrackMap.init], rfl⟩⟩
  · refine ⟨by simp [StateMachine.init, StateMachine.start], rfl, ?_, ?_⟩ <;>
      simp [StateMachine.init, StateMachine.start]

theorem run_trackInv (ws : List WorldState) :
    ∀ t : TrackMap, TrackInv t → TrackInv (t.run ws) := by
  induction ws with
  | nil => intro t h; exact h
  | cons w rest ih => intro t h; exact ih (t.update w) (trackInv_update t w h)

/-- C2: `corner_count` never exceeds 4 along any sequence of updates of a
fresh `TrackMap` (the fourth corner freezes the map on the same tick); and
along every run of the control loop from race start, the state machine's
`lap_count` (set to `corner_count // 4` on a `CORNER → WALL_FOLLOW` exit)
never exceeds 1, the guard `lap_count ≥ target_laps (= 3)` therefore never
holds, and the `DONE` state is never reached. -/
theorem C2_lap_count_bound :
    (∀ ws : List WorldState, (TrackMap.init.run ws).corners.length ≤ 4) ∧
    ∀ steps : List (WorldState × Bool),
      (systemRun steps).1.corners.length ≤ 4 ∧
      (systemRun steps).2.lapCount ≤ 1 ∧
      ¬((systemRun steps).2.targetLaps ≤ (systemRun steps).2.lapCount) ∧
      (systemRun steps).2.state ≠ RobotState.DONE := by
  have hinit : TrackInv TrackMap.init :=
    ⟨by simp [TrackMap.init], fun _ => ⟨by simp [TrackMap.init], rfl⟩⟩
  constructor
  · intro ws
    exact (run_trackInv ws TrackMap.init hinit).1
  · intro steps
    obtain ⟨ht, hlap, htarget, _, hdone⟩ :=
      And.imp_right (fun h => h) (systemRun_inv steps)
    exact ⟨ht.1, hlap, by omega, hdone⟩

/-! ### C1: pillar provenance -/

theorem bestMatchAux_sound (a : ℚ) (used : List ℕ) :
    ∀ (pairs : List (ℕ × DetectedObject)) (best : Option (ℕ × DetectedObject × ℚ))
      (x : ℕ × DetectedObject × ℚ),
      bestMatchAux a used pairs best = some x →
      best = some x ∨
      ((x.1, x.2.1) ∈ pairs ∧ widthOk x.2.1 = true ∧
        x.2.2 = |a - camAngle x.2.1.angle| ∧ x.2.2 < angleMatchThreshold) := by
  intro pairs
  induction pairs with
  | nil => intro best x h; left; exact h
  | cons io rest ih =>
    obtain ⟨i, o⟩ := io
    intro best x h
    unfold bestMatchAux at h
    cases best with
    | none =>
      dsimp only at h
      split at h
      · rcases ih none x h with h1 | h1
        · left; exact h1
        · right; exact ⟨List.mem_cons_of_mem _ h1.1, h1.2⟩
      · split at h
        · next hwid =>
          split at h
          · next hcond =>
            rcases ih _ x h with h1 | h1
            · right
              cases Option.some.inj h1
              exact ⟨List.mem_cons_self _ _, hwid, rfl, hcond.1⟩
            · right; exact ⟨List.mem_cons_of_mem _ h1.1, h1.2⟩
          · rcases ih none x h with h1 | h1
            · left; exact h1
            · right; exact ⟨List.mem_cons_of_mem _ h1.1, h1.2⟩
        · rcases ih none x h with h1 | h1
          · left; exact h1
          · right; exact ⟨List.mem_cons_of_mem _ h1.1, h1.2⟩
    | some b3 =>
      obtain ⟨j, q, bd⟩ := b3
      dsimp only at h
      split at h
      · rcases ih _ x h with h1 | h1
        · left; exact h1
        · right; exact ⟨List.mem_cons_of_mem _ h1.1, h1.2⟩
      · split at h
        · next hwid =>
          split at h
          · next hcond =>
            rcases ih _ x h with h1 | h1
            · right
              cases Option.some.inj h1
              exact ⟨List.mem_cons_self _ _, hwid, rfl, hcond.1⟩
            · right; exact ⟨List.mem_cons_of_mem _ h1.1, h1.2⟩
          · rcases ih _ x h with h1 | h1
            · left; exact h1
            · right; exact ⟨List.mem_cons_of_mem _ h1.1, h1.2⟩
        · rcases ih _ x h with h1 | h1
          · left; exact h1
          · right; exact ⟨List.mem_cons_of_mem _ h1.1, h1.2⟩

theorem matchPillarsAux_sound (pairs : List (ℕ × DetectedObject)) :
    ∀ (bs : List ColorBlob) (used : List ℕ) (p : Pillar),
      p ∈ matchPillarsAux pairs bs used →
      ∃ b ∈ bs, p.color = b.color ∧ p.angle = b.angle ∧
      ∃ io ∈ pairs, widthOk io.2 = true ∧
        |b.angle - camAngle io.2.angle| < angleMatchThreshold ∧
        p.distance = io.2.distance := by
  intro bs
  induction bs with
  | nil =>
    intro used p h
    simp [matchPillarsAux] at h
  | cons b rest ih =>
    intro used p h
    unfold matchPillarsAux at h
    cases hbm : bestMatchAux b.angle used pairs none with
    | none =>
      rw [hbm] at h
      obtain ⟨b', hb', rest'⟩ := ih used p h
      exact ⟨b', List.mem_cons_of_mem b hb', rest'⟩
    | some x =>
      obtain ⟨i, o, d⟩ := x
      rw [hbm] at h
      dsimp only at h
      rcases List.mem_cons.mp h with hp | hp
      · rcases bestMatchAux_sound b.angle used pairs none (i, o, d) hbm with hbad | hgood
        · cases hbad
        · subst hp
          refine ⟨b, List.mem_cons_self b rest, rfl, rfl,
            (i, o), hgood.1, hgood.2.1, ?_, rfl⟩
          have hd := hgood.2.2.1
          have hlt := hgood.2.2.2
          rw [hd] at hlt
          exact hlt
      · obtain ⟨b', hb', rest'⟩ := ih (i :: used) p hp
        exact ⟨b', List.mem_cons_of_mem b hb', rest'⟩

theorem snd_mem_of_mem_enum {α : Type} {l : List α} {io : ℕ × α}
    (h : io ∈ l.enum) : io.2 ∈ l :=
  List.getElem?_mem (List.mem_enum_iff_getElem?.mp h)

/-- C1 (amended): every `Pillar` emitted by `_match_pillars` comes from a
red or green blob of the same color and angle, matched to some cluster
whose width passes the `pillar_size_min ≤ width ≤ pillar_size_max` gate and
whose camera-frame angle is within `angle_match_threshold` of the blob; the
pillar's distance is that cluster's distance.  (The source never checks the
cluster's `obj_type`, so no "Pillar-kind" condition holds — see the
counterexample.) -/
theorem C1_pillar_provenance (objects : List DetectedObject)
    (blobs : List ColorBlob) (p : Pillar) (hp : p ∈ matchPillars objects blobs) :
    ∃ b ∈ blobs, (b.color = colorRed ∨ b.color = colorGreen) ∧
      p.color = b.color ∧ p.angle = b.angle ∧
      ∃ o ∈ objects, pillarSizeMin ≤ o.width ∧ o.width ≤ pillarSizeMax ∧
        |b.angle - camAngle o.angle| < angleMatchThreshold ∧
        p.distance = o.distance := by
  unfold matchPillars at hp
  obtain ⟨b, hbmem, hcol, hang, io, hio, hwidth, hdiff, hdist⟩ :=
    matchPillarsAux_sound _ _ _ p hp
  have hb2 := List.mem_filter.mp hbmem
  have hcolors : b.color = colorRed ∨ b.color = colorGreen := by
    have := hb2.2
    simpa using this
  have ho : io.2 ∈ objects := snd_mem_of_mem_enum hio
  have hw : pillarSizeMin ≤ io.2.width ∧ io.2.width ≤ pillarSizeMax := by
    have := hwidth
    unfold widthOk at this
    simpa using this
  exact ⟨b, hb2.1, hcolors, hcol, hang, io.2, ho, hw.1, hw.2, hdiff, hdist⟩

theorem matchPillars_wall_eval :
    matchPillars [wallObjX] [redBlob12] = [Pillar.mk colorRed 12 500] := by
  norm_num [matchPillars, matchPillarsAux, bestMatchAux, wallObjX, redBlob12,
    colorRed, colorGreen, kindWall, widthOk, camAngle, pillarSizeMin,
    pillarSizeMax, angleMatchThreshold, List.enum, List.enumFrom, List.filter]

theorem C1_pillar_provenance_witness :
    (Pillar.mk colorRed 12 500 ∈ matchPillars [wallObjX] [redBlob12]) ∧
    ∃ b ∈ [redBlob12], (b.color = colorRed ∨ b.color = colorGreen) ∧
      (Pillar.mk colorRed 12 500).color = b.color ∧
      (Pillar.mk colorRed 12 500).angle = b.angle ∧
      ∃ o ∈ [wallObjX], pillarSizeMin ≤ o.width ∧ o.width ≤ pillarSizeMax ∧
        |b.angle - camAngle o.angle| < angleMatchThreshold ∧
        (Pillar.mk colorRed 12 500).distance = o.distance :=
  ⟨by rw [matchPillars_wall_eval]; exact List.mem_singleton_self _,
    C1_pillar_provenance [wallObjX] [redBlob12] _
      (by rw [matchPillars_wall_eval]; exact List.mem_singleton_self _)⟩

/-- C1 (counterexample): the claim as stated also requires the matched
cluster to be classified as `Pillar` kind; but `_match_pillars` never reads
`obj_type`, so a wall-classified cluster (width 500 ≥ the 120 mm classifier
threshold, still inside the 30..1000 fusion gate) matched by a red blob
emits a `Pillar` for which no pillar-kind cluster exists at all. -/
theorem C1_counterexample :
    ¬ (∀ p ∈ matchPillars [wallObjX] [redBlob12],
        ∃ b ∈ [redBlob12], b.color = p.color ∧
        ∃ o ∈ [wallObjX], o.objType = kindPillar ∧
          pillarSizeMin ≤ o.width ∧ o.width ≤ pillarSizeMax ∧
          |b.angle - camAngle o.angle| < angleMatchThreshold) := by
  intro hclaim
  obtain ⟨b, _, _, o, ho, hkind, _⟩ :=
    hclaim (Pillar.mk colorRed 12 500)
      (by rw [matchPillars_wall_eval]; exact List.mem_singleton_self _)
  rw [List.mem_singleton] at ho
  rw [ho] at hkind
  simp [wallObjX, kindWall, kindPillar] at hkind

/-! ### C3: contention for a single cluster -/

/-- C3 (amended): when two red/green blobs both match the same single
eligible cluster within the threshold, the cluster is consumed by the blob
that appears first in the blob list — the outer loop is greedy in blob
order, not by smaller angle difference — and the other blob emits no
pillar. -/
theorem C3_first_blob_wins (b1 b2 : ColorBlob) (o : DetectedObject)
    (h1 : b1.color = colorRed ∨ b1.color = colorGreen)
    (h2 : b2.color = colorRed ∨ b2.color = colorGreen)
    (hw : widthOk o = true)
    (hd1 : |b1.angle - camAngle o.angle| < angleMatchThreshold)
    (_hd2 : |b2.angle - camAngle o.angle| < angleMatchThreshold) :
    matchPillars [o] [b1, b2] = [Pillar.mk b1.color b1.angle o.distance] := by
  rcases h1 with h1 | h1 <;> rcases h2 with h2 | h2 <;>
    simp [matchPillars, matchPillarsAux, bestMatchAux, List.enum,
      List.enumFrom, h1, h2, hw, hd1]

theorem C3_first_blob_wins_witness :
    ((b1X.color = colorRed ∨ b1X.color = colorGreen) ∧
     (b2X.color = colorRed ∨ b2X.color = colorGreen) ∧
     widthOk pObjX = true ∧
     |b1X.angle - camAngle pObjX.angle| < angleMatchThreshold ∧
     |b2X.angle - camAngle pObjX.angle| < angleMatchThreshold) ∧
    matchPillars [pObjX] [b1X, b2X] = [Pillar.mk b1X.color b1X.angle pObjX.distance] := by
  have ha : b1X.color = colorRed ∨ b1X.color = colorGreen := Or.inl rfl
  have hb : b2X.color = colorRed ∨ b2X.color = colorGreen := Or.inr rfl
  have hw : widthOk pObjX = true := by
    norm_num [widthOk, pObjX, pillarSizeMin, pillarSizeMax]
  have hd1 : |b1X.angle - camAngle pObjX.angle| < angleMatchThreshold := by
    norm_num [b1X, pObjX, camAngle, angleMatchThreshold]
  have hd2 : |b2X.angle - camAngle pObjX.angle| < angleMatchThreshold := by
    norm_num [b2X, pObjX, camAngle, angleMatchThreshold]
  exact ⟨⟨ha, hb, hw, hd1, hd2⟩, C3_first_blob_wins b1X b2X pObjX ha hb hw hd1 hd2⟩

/-- C3 (counterexample): red blob at +35° comes first in the list, green
blob at +10° is strictly nearer to the cluster at 0°; the code hands the
cluster to the red blob and the nearer green blob emits nothing — contrary
to the claim that the smaller-angle-difference blob consumes it. -/
theorem C3_counterexample :
    matchPillars [pObjX] [b1X, b2X] = [Pillar.mk colorRed 35 500] ∧
    |b2X.angle - camAngle pObjX.angle| < |b1X.angle - camAngle pObjX.angle| ∧
    ∀ p ∈ matchPillars [pObjX] [b1X, b2X], p.color ≠ b2X.color := by
  have heval : matchPillars [pObjX] [b1X, b2X] = [Pillar.mk colorRed 35 500] := by
    norm_num [matchPillars, matchPillarsAux, bestMatchAux, pObjX, b1X, b2X,
      colorRed, colorGreen, widthOk, camAngle, pillarSizeMin, pillarSizeMax,
      angleMatchThreshold, List.enum, List.enumFrom, List.filter]
  refine ⟨heval, by norm_num [b1X, b2X, pObjX, camAngle], ?_⟩
  rw [heval]
  intro p hp
  rw [List.mem_singleton] at hp
  subst hp
  simp [b2X, colorRed, colorGreen]

/-! ### C5: double update -/

theorem isNewPillar_congr (t t' : TrackMap) (e : ℤ) (c : String)
    (hp : t'.pillars = t.pillars) (ht : t'.pillarTolerance = t.pillarTolerance) :
    t'.isNewPillar e c = t.isNewPillar e c := by
  unfold TrackMap.isNewPillar
  rw [hp, ht]

theorem isNewPillar_eq_false_of_dup (t : TrackMap) (e : ℤ) (c : String)
    (h : PillarDup t.pillarTolerance t.pillars e c) :
    t.isNewPillar e c = false := by
  obtain ⟨r, hr, hc, hd⟩ := h
  unfold TrackMap.isNewPillar
  refine List.all_eq_false.mpr ⟨r, hr, ?_⟩
  simp [hc, hd]

theorem dup_of_isNewPillar_eq_false (t : TrackMap) (e : ℤ) (c : String)
    (h : t.isNewPillar e c = false) :
    PillarDup t.pillarTolerance t.pillars e c := by
  unfold TrackMap.isNewPillar at h
  obtain ⟨r, hr, hpr⟩ := List.all_eq_false.mp h
  refine ⟨r, hr, ?_⟩
  simpa using hpr

theorem pillarDup_append (tol : ℤ) (recs suf : List PillarRecord) (e : ℤ)
    (c : String) (h : PillarDup tol recs e c) : PillarDup tol (recs ++ suf) e c := by
  obtain ⟨r, hr, hrest⟩ := h
  exact ⟨r, List.mem_append_left _ hr, hrest⟩

theorem pillarStep_pillars_prefix (e : ℤ) (t : TrackMap) (p : Pillar) :
    ∃ suf, (TrackMap.pillarStep e t p).pillars = t.pillars ++ suf := by
  unfold TrackMap.pillarStep
  split
  · exact ⟨_, rfl⟩
  · exact ⟨[], by simp⟩

theorem foldl_pillarStep_pillars_prefix (e : ℤ) (ps : List Pillar) :
    ∀ t : TrackMap, ∃ suf, (ps.foldl (TrackMap.pillarStep e) t).pillars = t.pillars ++ suf := by
  induction ps with
  | nil => intro t; exact ⟨[], by simp⟩
  | cons q rest ih =>
    intro t
    obtain ⟨suf1, h1⟩ := pillarStep_pillars_prefix e t q
    obtain ⟨suf2, h2⟩ := ih (TrackMap.pillarStep e t q)
    exact ⟨suf1 ++ suf2, by rw [List.foldl_cons, h2, h1, List.append_assoc]⟩

theorem foldl_pillarStep_covers (e : ℤ) (ps : List Pillar) :
    ∀ t : TrackMap, 0 < t.pillarTolerance →
      ∀ p ∈ ps, PillarDup t.pillarTolerance
        ((ps.foldl (TrackMap.pillarStep e) t).pillars) e p.color := by
  induction ps with
  | nil => intro t _ p hp; cases hp
  | cons q rest ih =>
    intro t htol p hp
    rw [List.foldl_cons]
    rcases List.mem_cons.mp hp with hpq | hpr
    · subst hpq
      have hstep : PillarDup t.pillarTolerance
          ((TrackMap.pillarStep e t p).pillars) e p.color := by
        unfold TrackMap.pillarStep
        split
        · refine ⟨_, List.mem_append_right _ (List.mem_singleton_self _), rfl, ?_⟩
          simpa using htol
        · next hnew =>
          have hfalse : t.isNewPillar e p.color = false := by
            cases hb : t.isNewPillar e p.color
            · rfl
            · exact absurd hb hnew
          exact dup_of_isNewPillar_eq_false t e p.color hfalse
      obtain ⟨suf, hsuf⟩ := foldl_pillarStep_pillars_prefix e rest (TrackMap.pillarStep e t p)
      rw [hsuf]
      exact pillarDup_append _ _ _ _ _ hstep
    · have htol' : 0 < (TrackMap.pillarStep e t q).pillarTolerance := by
        rw [pillarStep_pillarTolerance]; exact htol
      have := ih (TrackMap.pillarStep e t q) htol' p hpr
      rw [pillarStep_pillarTolerance] at this
      exact this

theorem foldl_pillarStep_noop (e : ℤ) (ps : List Pillar) :
    ∀ t : TrackMap, (∀ p ∈ ps, t.isNewPillar e p.color = false) →
      ps.foldl (TrackMap.pillarStep e) t = t := by
  induction ps with
  | nil => intro t _; rfl
  | cons q rest ih =>
    intro t h
    rw [List.foldl_cons]
    have hq : TrackMap.pillarStep e t q = t := by
      unfold TrackMap.pillarStep
      rw [if_neg (by simp [h q (List.mem_cons_self q rest)])]
    rw [hq]
    exact ih t (fun p hp => h p (List.mem_cons_of_mem q hp))

theorem updateCorners_noop (t : TrackMap) (w : WorldState)
    (h : w.cornerAhead = none ∨
      |w.encoderPos - t.lastCornerEnc| < t.cornerTolerance) :
    t.updateCorners w = t := by
  unfold TrackMap.updateCorners
  rcases h with h | h
  · rw [h]
  · cases hc : w.cornerAhead with
    | none => rfl
    | some d => dsimp only; rw [if_pos h]

theorem updateCorners_post (t : TrackMap) (w : WorldState)
    (hct : 0 < t.cornerTolerance) :
    w.cornerAhead = none ∨
      |w.encoderPos - (t.updateCorners w).lastCornerEnc| <
        (t.updateCorners w).cornerTolerance := by
  unfold TrackMap.updateCorners
  cases hc : w.cornerAhead with
  | none => left; rfl
  | some d =>
    right
    dsimp only
    split
    · next hlt => exact hlt
    · simp only [finalizeSection_lastCornerEnc, finalizeSection_cornerTolerance]
      simpa using hct

theorem update_firstLap_eq (s : TrackMap) (w : WorldState)
    (h : s.firstLap = true) :
    s.update w = (s.updateBody w).finalizeStep w.encoderPos := by
  unfold TrackMap.update
  rw [if_neg (by simp [h])]

/-- C5 (amended): with the positive tolerances the constructor defaults
give, calling `TrackMap.update` twice with the same world equals one call
in every field except the pending section sample buffer
(`_section_widths`), which receives one duplicate `corridor_width` sample
whenever the map is still on its first lap and the width is present.  The
duplicate changes the average width of the section that is eventually
closed, so the two maps are observably different (see the
counterexample). -/
theorem C5_double_update (t : TrackMap) (w : WorldState)
    (hct : 0 < t.cornerTolerance) (hpt : 0 < t.pillarTolerance) :
    (t.update w).update w =
      { t.update w with sectionWidths :=
          if (t.update w).firstLap then
            (t.update w).sectionWidths ++ w.corridorWidth.toList
          else (t.update w).sectionWidths } := by
  by_cases hfl : t.firstLap = false
  · have h1 : t.update w = t := TrackMap.update_not_firstLap t w hfl
    rw [h1, h1, if_neg (by simp [hfl])]
  · have hft : t.firstLap = true := by
      cases hb : t.firstLap
      · exact absurd hb hfl
      · rfl
    have ht1 : t.update w = (t.updateBody w).finalizeStep w.encoderPos :=
      update_firstLap_eq t w hft
    by_cases hfin : (t.update w).firstLap = false
    · rw [TrackMap.update_not_firstLap _ w hfin, if_neg (by simp [hfin])]
    · have hft1 : (t.update w).firstLap = true := by
        cases hb : (t.update w).firstLap
        · exact absurd hb hfin
        · rfl
      have hbody := finalizeStep_firstLap_true (t.updateBody w) w.encoderPos
        (updateBody_lapStart_isSome t w) (by rw [← ht1]; exact hft1)
      have ht1b : t.update w = t.updateBody w := by rw [ht1, hbody.2]
      have hsecond : (t.update w).update w =
          ((t.update w).updateBody w).finalizeStep w.encoderPos :=
        update_firstLap_eq (t.update w) w hft1
      have hA : (t.update w).initStep w.encoderPos = t.update w :=
        initStep_noop _ _ (by
          have hs := updateBody_lapStart_isSome t w
          rw [← ht1b] at hs
          exact Option.isSome_iff_ne_none.mp hs)
      have hdirB : (t.update w).direction ≠ none ∨ w.cornerAhead = none := by
        rcases directionStep_direction_after (t.initStep w.encoderPos) w with hd | hd
        · left
          rw [ht1b]
          rw [show (t.updateBody w).direction =
              ((t.initStep w.encoderPos).directionStep w).direction from by
            simp [TrackMap.updateBody, updateParking_direction,
              updatePillars_direction, updateSections_direction,
              updateCorners_direction]]
          exact hd
        · right; exact hd
      have hB : (t.update w).directionStep w = t.update w :=
        directionStep_noop _ _ hdirB
      have hclast : (t.update w).lastCornerEnc =
          (((t.initStep w.encoderPos).directionStep w).updateCorners w).lastCornerEnc := by
        rw [ht1b]
        simp [TrackMap.updateBody, updateParking_lastCornerEnc,
          updatePillars_lastCornerEnc, updateSections_lastCornerEnc]
      have hctolg : (t.update w).cornerTolerance =
          (((t.initStep w.encoderPos).directionStep w).updateCorners w).cornerTolerance := by
        rw [ht1b]
        simp [TrackMap.updateBody, updateParking_cornerTolerance,
          updatePillars_cornerTolerance, updateSections_cornerTolerance]
      have hCpre : w.cornerAhead = none ∨
          |w.encoderPos - (t.update w).lastCornerEnc| <
            (t.update w).cornerTolerance := by
        have hpos : 0 < ((t.initStep w.encoderPos).directionStep w).cornerTolerance := by
          rw [directionStep_cornerTolerance, initStep_cornerTolerance]
          exact hct
        rcases updateCorners_post ((t.initStep w.encoderPos).directionStep w) w hpos
          with hd | hd
        · left; exact hd
        · right; rw [hclast, hctolg]; exact hd
      have hC : (t.update w).updateCorners w = t.update w :=
        updateCorners_noop _ _ hCpre
      have hdup : ∀ p ∈ w.pillars,
          (t.update w).isNewPillar w.encoderPos p.color = false := by
        intro p hp
        have hXtol : 0 < ((((t.initStep w.encoderPos).directionStep
            w).updateCorners w).updateSections w).pillarTolerance := by
          rw [updateSections_pillarTolerance, updateCorners_pillarTolerance,
            directionStep_pillarTolerance, initStep_pillarTolerance]
          exact hpt
        have hcov := foldl_pillarStep_covers w.encoderPos w.pillars _ hXtol p hp
        have hpg : (t.update w).pillars =
            (((((t.initStep w.encoderPos).directionStep w).updateCorners
              w).updateSections w).updatePillars w).pillars := by
          rw [ht1b]
          simp [TrackMap.updateBody, updateParking_pillars]
        have htolg : (t.update w).pillarTolerance =
            ((((t.initStep w.encoderPos).directionStep w).updateCorners
              w).updateSections w).pillarTolerance := by
          rw [ht1b]
          simp [TrackMap.updateBody, updateParking_pillarTolerance,
            updatePillars_pillarTolerance]
        apply isNewPillar_eq_false_of_dup
        rw [hpg, htolg]
        exact hcov
      have hE : ∀ S : TrackMap, S.pillars = (t.update w).pillars →
          S.pillarTolerance = (t.update w).pillarTolerance →
          S.updatePillars w = S := by
        intro S h1 h2
        refine foldl_pillarStep_noop w.encoderPos w.pillars S ?_
        intro p hp
        rw [isNewPillar_congr (t.update w) S w.encoderPos p.color h1 h2]
        exact hdup p hp
      have hF : ∀ S : TrackMap, S.parkingZone = (t.update w).parkingZone →
          S.updateParking w = S := by
        intro S h1
        apply updateParking_noop
        rcases updateParking_after (((((t.initStep
            w.encoderPos).directionStep w).updateCorners w).updateSections
              w).updatePillars w) w with hz | hz
        · right
          rw [h1, ht1b]
          exact hz
        · left; exact hz
      have hG : ∀ S : TrackMap, S.corners = (t.update w).corners →
          S.lapLength = (t.update w).lapLength →
          S.finalizeStep w.encoderPos = S := by
        intro S h1 h2
        apply finalizeStep_noop
        rw [h1, h2, ht1b]
        exact hbody.1
      have hbody2 : (t.update w).updateBody w =
          { t.update w with sectionWidths :=
              (t.update w).sectionWidths ++ w.corridorWidth.toList } := by
        unfold TrackMap.updateBody
        rw [hA, hB, hC, updateSections_eq,
          hE ({ t.update w with sectionWidths :=
            (t.update w).sectionWidths ++ w.corridorWidth.toList }) rfl rfl,
          hF ({ t.update w with sectionWidths :=
            (t.update w).sectionWidths ++ w.corridorWidth.toList }) rfl]
      rw [hsecond, hbody2,
        hG ({ t.update w with sectionWidths :=
          (t.update w).sectionWidths ++ w.corridorWidth.toList }) rfl rfl,
        if_pos hft1]

theorem C5_double_update_witness :
    (0 : ℤ) < TrackMap.init.cornerTolerance ∧
    (0 : ℤ) < TrackMap.init.pillarTolerance ∧
    (TrackMap.init.update w500).update w500 =
      { TrackMap.init.update w500 with sectionWidths :=
          if (TrackMap.init.update w500).firstLap then
            (TrackMap.init.update w500).sectionWidths ++ w500.corridorWidth.toList
          else (TrackMap.init.update w500).sectionWidths } :=
  ⟨by decide, by decide, C5_double_update TrackMap.init w500 (by decide) (by decide)⟩

/-- C5 (counterexample): from a fresh map, updating twice with a world whose
corridor measures 500 mm leaves a duplicated width sample (`[500, 500]` vs
`[500]`), so the maps are unequal; and after a later 800 mm sample and a
corner, the closed section's average width is 600 mm instead of 650 mm —
an observable divergence in `sections`. -/
theorem C5_counterexample :
    ((TrackMap.init.update w500).update w500).sectionWidths = [500, 500] ∧
    (TrackMap.init.update w500).sectionWidths = [500] ∧
    ((TrackMap.init.update w500).update w500) ≠ TrackMap.init.update w500 ∧
    ((((TrackMap.init.update w500).update w500).update w800).update
      wCornerX).sections = [Section.mk 0 500 600] ∧
    (((TrackMap.init.update w500).update w800).update wCornerX).sections =
      [Section.mk 0 500 650] := by
  have e1 : TrackMap.init.update w500 =
      { TrackMap.init with
          lapStart := some 0
          sectionStart := some 0
          sectionWidths := [500] } := by
    simp [TrackMap.update, TrackMap.updateBody, TrackMap.initStep,
      TrackMap.directionStep, TrackMap.updateCorners, TrackMap.updateSections,
      TrackMap.updatePillars, TrackMap.pillarStep, TrackMap.updateParking,
      TrackMap.finalizeStep, TrackMap.finalizeLap, TrackMap.finalizeSection,
      TrackMap.init, w500, WorldState.corridorWidth, WallInfo.corridorWidth]
    all_goals norm_num
  have e2 : (TrackMap.init.update w500).update w500 =
      { TrackMap.init with
          lapStart := some 0
          sectionStart := some 0
          sectionWidths := [500, 500] } := by
    rw [e1]
    simp [TrackMap.update, TrackMap.updateBody, TrackMap.initStep,
      TrackMap.directionStep, TrackMap.updateCorners, TrackMap.updateSections,
      TrackMap.updatePillars, TrackMap.pillarStep, TrackMap.updateParking,
      TrackMap.finalizeStep, TrackMap.finalizeLap, TrackMap.finalizeSection,
      TrackMap.init, w500, WorldState.corridorWidth, WallInfo.corridorWidth]
    all_goals norm_num
  have e3 : ((TrackMap.init.update w500).update w500).update w800 =
      { TrackMap.init with
          lapStart := some 0
          sectionStart := some 0
          sectionWidths := [500, 500, 800] } := by
    rw [e2]
    simp [TrackMap.update, TrackMap.updateBody, TrackMap.initStep,
      TrackMap.directionStep, TrackMap.updateCorners, TrackMap.updateSections,
      TrackMap.updatePillars, TrackMap.pillarStep, TrackMap.updateParking,
      TrackMap.finalizeStep, TrackMap.finalizeLap, TrackMap.finalizeSection,
      TrackMap.init, w800, WorldState.corridorWidth, WallInfo.corridorWidth]
    all_goals norm_num
  have e4 : (TrackMap.init.update w500).update w800 =
      { TrackMap.init with
          lapStart := some 0
          sectionStart := some 0
          sectionWidths := [500, 800] } := by
    rw [e1]
    simp [TrackMap.update, TrackMap.updateBody, TrackMap.initStep,
      TrackMap.directionStep, TrackMap.updateCorners, TrackMap.updateSections,
      TrackMap.updatePillars, TrackMap.pillarStep, TrackMap.updateParking,
      TrackMap.finalizeStep, TrackMap.finalizeLap, TrackMap.finalizeSection,
      TrackMap.init, w800, WorldState.corridorWidth, WallInfo.corridorWidth]
    all_goals norm_num
  have e5 : (((TrackMap.init.update w500).update w500).update w800).update
      wCornerX = { TrackMap.init with
          direction := some dirCW
          corners := [Corner.mk 500 dirRIGHT]
          sections := [Section.mk 0 500 600]
          lapStart := some 0
          lastCornerEnc := 500
          sectionStart := some 500 } := by
    rw [e3]
    simp [TrackMap.update, TrackMap.updateBody, TrackMap.initStep,
      TrackMap.directionStep, TrackMap.updateCorners, TrackMap.updateSections,
      TrackMap.updatePillars, TrackMap.pillarStep, TrackMap.updateParking,
      TrackMap.finalizeStep, TrackMap.finalizeLap, TrackMap.finalizeSection,
      TrackMap.init, wCornerX, blankWallInfo, WorldState.corridorWidth,
      WallInfo.corridorWidth]
    all_goals norm_num
  have e6 : ((TrackMap.init.update w500).update w800).update wCornerX =
      { TrackMap.init with
          direction := some dirCW
          corners := [Corner.mk 500 dirRIGHT]
          sections := [Section.mk 0 500 650]
          lapStart := some 0
          lastCornerEnc := 500
          sectionStart := some 500 } := by
    rw [e4]
    simp [TrackMap.update, TrackMap.updateBody, TrackMap.initStep,
      TrackMap.directionStep, TrackMap.updateCorners, TrackMap.updateSections,
      TrackMap.updatePillars, TrackMap.pillarStep, TrackMap.updateParking,
      TrackMap.finalizeStep, TrackMap.finalizeLap, TrackMap.finalizeSection,
      TrackMap.init, wCornerX, blankWallInfo, WorldState.corridorWidth,
      WallInfo.corridorWidth]
    all_goals norm_num
  refine ⟨by rw [e2], by rw [e1], ?_, by rw [e5], by rw [e6]⟩
  intro hcon
  rw [e2, e1] at hcon
  have := congrArg TrackMap.sectionWidths hcon
  simp at this

end WRO
